import Mathlib

/-!
Shallow embedding of the Remote Execution Client subsystem of
`devpod-provider-ssh` (Go), together with theorems settling the frozen
claims about its specification.

Sources embedded (per function, from `src/`):
- `pkg/ssh/client.go` : fallback error types and `shouldFallback`
- `pkg/ssh/util.go`   : `createHostKeyVerificationCallback`,
  `addUnknownHostsCallback`, `buildAuth`, `getSSHPortOrDefault`,
  `resolveOperatingSystemType`, `GoSSHClient` (Connect / Execute / Upload /
  isStale / reconnect / ensureConnected / executeViaScript / loadAuthMethods)
- `pkg/ssh/config_parser.go` : `defaultConfig`, `applyConfigDirective`,
  `parseSSHConfigFile`, `matchHost`, `expandPath`
- `pkg/ssh/shell_client.go`  : `ShellSSHClient` (Execute / Upload /
  getSSHCommand / getSCPCommand / copyAndExecute)

External library primitives (golang.org/x/crypto knownhosts, melbahja/goph,
kballard/go-shellquote, Go strings/strconv) are modelled at the level the
repository relies on; filesystem, network and clock effects are passed in as
explicit environments.
-/

namespace DevpodSSH

/-! ## Go string primitives

Character-level models of the Go standard-library string functions the
embedded code calls.  Unicode handling is modelled at the `Char` level; the
Latin-1 whitespace set of `unicode.IsSpace` is used for `strings.TrimSpace`.
-/

/-- The whitespace set of Go `unicode.IsSpace` restricted to Latin-1
(`'\t' '\n' '\v' '\f' '\r' ' '` plus NEL and NBSP). -/
def goIsSpace (c : Char) : Bool :=
  c == ' ' || c == '\t' || c == '\n' || c == '\x0b' || c == '\x0c' ||
  c == '\r' || c == '\x85' || c == '\xa0'

def dropWhileSpace (l : List Char) : List Char :=
  l.dropWhile goIsSpace

/-- Go `strings.TrimSpace` on the character list. -/
def trimSpaceL (l : List Char) : List Char :=
  dropWhileSpace ((dropWhileSpace l.reverse).reverse)

def trimSpace (s : String) : String :=
  ⟨trimSpaceL s.toList⟩

/-- ASCII model of Go `strings.ToLower` (sufficient for the probed outputs). -/
def toLowerL (l : List Char) : List Char :=
  l.map Char.toLower

def toLowerS (s : String) : String :=
  ⟨toLowerL s.toList⟩

/-- Does `l` start with `pat`?  (Go `strings.HasPrefix` at `Char` level.) -/
def startsWithL (pat l : List Char) : Bool :=
  match pat, l with
  | [], _ => true
  | _ :: _, [] => false
  | a :: as, b :: bs => a == b && startsWithL as bs

/-- Does `l` contain `pat` as a contiguous run?  (Go `strings.Contains`.) -/
def hasSubL (pat : List Char) : List Char → Bool
  | [] => pat.isEmpty
  | c :: rest => startsWithL pat (c :: rest) || hasSubL pat rest

/-- Go `strings.Contains s pat` (argument order as in Go). -/
def goContains (s pat : String) : Bool :=
  hasSubL pat.toList s.toList

/-- Go `strings.HasPrefix s pat`. -/
def goHasPrefixS (s pat : String) : Bool :=
  startsWithL pat.toList s.toList

theorem lengthDropWhileLe {α : Type} (p : α → Bool) (l : List α) :
    (l.dropWhile p).length ≤ l.length := by
  induction l with
  | nil => simp
  | cons a l ih =>
    by_cases h : p a
    · simp only [List.dropWhile_cons, h, if_true]
      simp only [List.length_cons]
      omega
    · simp [List.dropWhile_cons, h]

/-- Single pass of Go `strings.Fields`; the second argument is the
reversed buffer of the word in progress. -/
def goFieldsAux : List Char → Option (List Char) → List (List Char)
  | [], none => []
  | [], some buf => [buf.reverse]
  | c :: rest, none =>
    if goIsSpace c then goFieldsAux rest none
    else goFieldsAux rest (some [c])
  | c :: rest, some buf =>
    if goIsSpace c then buf.reverse :: goFieldsAux rest none
    else goFieldsAux rest (some (c :: buf))

/-- Go `strings.Fields`: split on runs of whitespace, dropping empties. -/
def goFieldsL (l : List Char) : List (List Char) :=
  goFieldsAux l none

def goFields (s : String) : List String :=
  (goFieldsL s.toList).map fun l => ⟨l⟩

/-- Go `filepath.Base`: the last path element (minimal model: no trailing
slash stripping beyond one pass, sufficient for `os.CreateTemp` names). -/
def baseName (s : String) : String :=
  match (s.toList.reverse.takeWhile (fun c => c != '/')).reverse with
  | [] => "/"
  | l => ⟨l⟩

/-! ## Error model

`GoErr` models Go `error` values as the repository distinguishes them:
the three tagged fallback types declared in `pkg/ssh/client.go`, the
`knownhosts.KeyError` of golang.org/x/crypto (carrying its `Want` set),
plain `fmt.Errorf` messages, and `fmt.Errorf("...: %w", err)` wrapping. -/

inductive GoErr where
  /-- `UnsupportedConfigError{Directive}` -/
  | unsupportedConfig (directive : String)
  /-- `AuthenticationMethodError{Method}` -/
  | authMethod (method : String)
  /-- `KeyFormatError{Format}` -/
  | keyFormat (format : String)
  /-- `knownhosts.KeyError` with its `Want` key set (empty = host unknown). -/
  | keyError (want : List String)
  /-- a plain `fmt.Errorf` / `errors.New` message -/
  | msg (s : String)
  /-- `fmt.Errorf("<context>: %w", inner)` -/
  | wrap (context : String) (inner : GoErr)
deriving DecidableEq, Repr

/-- The rendered `Error()` string of a `GoErr` (as `client.go` formats the
three tagged types, and `%w` wrapping concatenates with `": "`). -/
def GoErr.message : GoErr → String
  | .unsupportedConfig d => "unsupported SSH config directive: " ++ d
  | .authMethod m => "unsupported authentication method: " ++ m
  | .keyFormat f => "unsupported key format: " ++ f
  | .keyError _ => "knownhosts: key mismatch or unknown"
  | .msg s => s
  | .wrap ctx inner => ctx ++ ": " ++ inner.message

/-! ## `shouldFallback` (`pkg/ssh/client.go`, lines 52-64)

The Go function takes an `error`; `none` models `err == nil`.  The source
uses a bare type switch (no `errors.As` unwrapping), so a *wrapped* tagged
error does not match: `GoErr.wrap` falls to the `false` branch. -/

def shouldFallback : Option GoErr → Bool
  | none => false
  | some e =>
    match e with
    | .unsupportedConfig _ => true
    | .authMethod _ => true
    | .keyFormat _ => true
    | _ => false

/-! ## `getSSHPortOrDefault` (`pkg/ssh/util.go`, lines 227-238)

`strconv.ParseUint(s, 10, 16)`: succeeds exactly on a nonempty all-decimal
string whose value fits in 16 bits (no sign, no base prefix, no
underscores with an explicit base). -/

/-- Model of Go `strconv.ParseUint(s, 10, 16)`. -/
def parseUint16 (s : String) : Option Nat :=
  let l := s.toList
  if l.isEmpty then none
  else if l.all (fun c => c.isDigit) then
    let v := l.foldl (fun acc c => acc * 10 + (c.toNat - '0'.toNat)) 0
    if v < 65536 then some v else none
  else none

/-- The default SSH port constant (`DefaultSSHPort`). -/
def DefaultSSHPort : Nat := 22

/-- `getSSHPortOrDefault`: trims, returns 22 on empty input, falls back to
22 on parse failure or a parsed zero, otherwise returns the parsed value.
Every return site in the source carries a `nil` error. -/
def getSSHPortOrDefault (portStr : String) : Except GoErr Nat :=
  let portStr := trimSpace portStr
  if portStr = "" then .ok DefaultSSHPort
  else
    match parseUint16 portStr with
    | none => .ok DefaultSSHPort
    | some port => if port = 0 then .ok DefaultSSHPort else .ok port

/-! ## Options (`pkg/options/options.go`)

`KnownHostsPolicy` is a string type in Go; `ParseKnownHostsPolicy` maps any
unrecognized value to Strict and the `switch` in
`createHostKeyVerificationCallback` sends everything that is not Ignore or
AcceptNew to its `default` (Strict) branch, so a three-valued enum with
`strict` as the default case is a faithful model. -/

inductive KnownHostsPolicy where
  | strict
  | acceptNew
  | ignore
deriving DecidableEq, Repr

/-- The fields of `options.Options` the ssh package reads. -/
structure Options where
  dockerPath : String := ""
  agentPath : String := ""
  user : String := ""
  host : String := ""
  port : String := ""
  extraFlags : String := ""
  useBuiltinSSH : Bool := false
  knownHostsPolicy : KnownHostsPolicy := .strict
  knownHostsPath : String := ""
deriving DecidableEq, Repr

/-! ## Known-hosts store and host-key callbacks
(`pkg/ssh/util.go`, lines 75-142)

The golang.org/x/crypto `knownhosts` library is external; it is modelled at
the level the repository relies on: a parsed store is a list of
`(host, key)` entries, and the callback produced by `knownhosts.New`
returns `nil` on a matching entry and a `KeyError` carrying the keys on
file for that host otherwise (an empty `Want` set signals an unknown host).
`goph.AddKnownHost` appends an entry to the store file; `goph.CheckKnownHost`
reports `(found, err)` as the callback does, with `found` true exactly when
the store holds entries for the host. -/

abbrev KnownHostsStore := List (String × String)

/-- The `Want` key set the knownhosts callback reports for `host`. -/
def khWant (store : KnownHostsStore) (host : String) : List String :=
  (store.filter (fun e => e.1 == host)).map Prod.snd

/-- One invocation of the callback `knownhosts.New` builds over `store`:
`none` (accept) on a matching entry, otherwise a `KeyError` with the keys
on file for this host. -/
def khCheck (store : KnownHostsStore) (host key : String) : Option GoErr :=
  let want := khWant store host
  if key ∈ want then none else some (.keyError want)

/-- The host-key callbacks `createHostKeyVerificationCallback` can return:
`ssh.InsecureIgnoreHostKey()`, a plain knownhosts callback (Strict), the
AcceptNew wrapper over a store loaded from `knownHostsPath`, or
`addUnknownHostsCallback` (AcceptNew against the default store). -/
inductive HostKeyCB where
  | insecureIgnore
  | knownHostsStrict (checkStore : KnownHostsStore)
  | acceptNewWrapped (checkStore : KnownHostsStore) (path : String)
  | acceptNewDefault
deriving DecidableEq, Repr

/-- Store-loading effects of callback construction: the parse result of
`knownhosts.New(cfg.knownHostsPath)` and of the default known-hosts file
(`none` = load error). -/
structure HKEnv where
  loadStore : Option KnownHostsStore := none
  defaultStore : Option KnownHostsStore := none

/-- `createHostKeyVerificationCallback` (`pkg/ssh/util.go`, lines 100-142). -/
def createHostKeyVerificationCallback (env : HKEnv) (cfg : Options) :
    Except GoErr HostKeyCB :=
  match cfg.knownHostsPolicy with
  | .ignore => .ok .insecureIgnore
  | .acceptNew =>
    if cfg.knownHostsPath ≠ "" then
      match env.loadStore with
      | none =>
        .error (.wrap ("load known_hosts from " ++ cfg.knownHostsPath)
          (.msg "knownhosts load failed"))
      | some store => .ok (.acceptNewWrapped store cfg.knownHostsPath)
    else .ok .acceptNewDefault
  | .strict =>
    if cfg.knownHostsPath ≠ "" then
      match env.loadStore with
      | none =>
        .error (.wrap ("load known_hosts from " ++ cfg.knownHostsPath)
          (.msg "knownhosts load failed"))
      | some store => .ok (.knownHostsStrict store)
    else
      match env.defaultStore with
      | none => .error (.wrap "load known_hosts" (.msg "knownhosts load failed"))
      | some store => .ok (.knownHostsStrict store)

/-- One host-key check of a built callback.  `fileStore` is the current
content of the relevant known-hosts file (which AcceptNew appends to),
`addOk` whether `goph.AddKnownHost` succeeds.  Returns the verdict
(`none` = accept) and the file content afterwards. -/
def runHostKeyCB (cb : HostKeyCB) (host key : String)
    (fileStore : KnownHostsStore) (addOk : Bool) :
    Option GoErr × KnownHostsStore :=
  match cb with
  | .insecureIgnore => (none, fileStore)
  | .knownHostsStrict checkStore => (khCheck checkStore host key, fileStore)
  | .acceptNewWrapped checkStore _path =>
    -- wrapper in createHostKeyVerificationCallback, lines 110-124
    match khCheck checkStore host key with
    | none => (none, fileStore)
    | some e =>
      match e with
      | .keyError want =>
        if want.isEmpty then
          -- unknown host: add and accept
          if addOk then (none, fileStore ++ [(host, key)])
          else (some (.wrap ("failed to add host " ++ host ++ " to known_hosts")
            (.msg "write failed")), fileStore)
        else (some (.keyError want), fileStore)
      | _ => (some e, fileStore)
  | .acceptNewDefault =>
    -- addUnknownHostsCallback, lines 75-98, via goph.CheckKnownHost
    let hostFound := fileStore.any (fun e => e.1 == host)
    match khCheck fileStore host key with
    | none => (none, fileStore)
    | some e =>
      if hostFound then (some e, fileStore)
      else
        match e with
        | .keyError want =>
          if want.isEmpty then
            if addOk then (none, fileStore ++ [(host, key)])
            else (some (.wrap ("failed to add host " ++ host ++ " to known_hosts")
              (.msg "write failed")), fileStore)
          else (some (.keyError want), fileStore)
        | _ => (some e, fileStore)

theorem mem_khWant (S : KnownHostsStore) (h k : String) :
    k ∈ khWant S h ↔ (h, k) ∈ S := by
  simp only [khWant, List.mem_map, List.mem_filter]
  constructor
  · rintro ⟨⟨a, b⟩, ⟨hmem, ha⟩, rfl⟩
    simp only [beq_iff_eq] at ha
    subst ha
    exact hmem
  · intro hmem
    exact ⟨(h, k), ⟨hmem, by simp⟩, rfl⟩

theorem khWant_nil_iff (S : KnownHostsStore) (h : String) :
    khWant S h = [] ↔ ∀ k, (h, k) ∉ S := by
  rw [List.eq_nil_iff_forall_not_mem]
  constructor
  · intro hall k hk
    exact hall k ((mem_khWant S h k).mpr hk)
  · intro hall k hk
    exact hall k ((mem_khWant S h k).mp hk)

theorem khCheck_none_iff (S : KnownHostsStore) (h k : String) :
    khCheck S h k = none ↔ (h, k) ∈ S := by
  unfold khCheck
  by_cases hmem : k ∈ khWant S h
  · simp [hmem, (mem_khWant S h k).mp hmem]
  · simp only [if_neg hmem]
    simp only [Option.some_ne_none, false_iff]
    intro hc
    exact hmem ((mem_khWant S h k).mpr hc)

/-- C5 helper: the predicate "is one of the three tagged fallback types". -/
def isFallbackTagged (e : GoErr) : Prop :=
  (∃ d, e = .unsupportedConfig d) ∨ (∃ m, e = .authMethod m) ∨
    (∃ f, e = .keyFormat f)

end DevpodSSH

open DevpodSSH

/-- **C5** — `shouldFallback(err)` returns true exactly when `err` is one of
the three tagged fallback error types (`UnsupportedConfigError`,
`AuthenticationMethodError`, `KeyFormatError`), and returns false for `nil`
and for every other error. -/
theorem C5_shouldFallback_exact :
    shouldFallback none = false ∧
    ∀ e : GoErr, shouldFallback (some e) = true ↔ isFallbackTagged e := by
  refine ⟨rfl, fun e => ?_⟩
  constructor
  · intro h
    cases e with
    | unsupportedConfig d => exact Or.inl ⟨d, rfl⟩
    | authMethod m => exact Or.inr (Or.inl ⟨m, rfl⟩)
    | keyFormat f => exact Or.inr (Or.inr ⟨f, rfl⟩)
    | keyError w => simp [shouldFallback] at h
    | msg s => simp [shouldFallback] at h
    | wrap c i => simp [shouldFallback] at h
  · rintro (⟨d, rfl⟩ | ⟨m, rfl⟩ | ⟨f, rfl⟩) <;> rfl

/-- **C10** — Port resolution never returns an error: after trimming
whitespace, an empty string, a non-`uint16` string, or zero yield the
default port 22, and every parseable value in 1..65535 is returned
unchanged. -/
theorem C10_port_resolution_total :
    ∀ s : String,
      (∃ p, getSSHPortOrDefault s = .ok p) ∧
      (trimSpace s = "" → getSSHPortOrDefault s = .ok 22) ∧
      (parseUint16 (trimSpace s) = none → getSSHPortOrDefault s = .ok 22) ∧
      (parseUint16 (trimSpace s) = some 0 → getSSHPortOrDefault s = .ok 22) ∧
      (∀ p, parseUint16 (trimSpace s) = some p → 1 ≤ p →
        getSSHPortOrDefault s = .ok p) := by
  intro s
  refine ⟨?_, ?_, ?_, ?_, ?_⟩
  · unfold getSSHPortOrDefault
    by_cases h : trimSpace s = ""
    · exact ⟨DefaultSSHPort, by simp [h]⟩
    · cases hp : parseUint16 (trimSpace s) with
      | none => exact ⟨DefaultSSHPort, by simp [h, hp]⟩
      | some p =>
        by_cases hz : p = 0
        · exact ⟨DefaultSSHPort, by simp [h, hp, hz]⟩
        · exact ⟨p, by simp [h, hp, hz]⟩
  · intro h; simp [getSSHPortOrDefault, h, DefaultSSHPort]
  · intro h
    by_cases he : trimSpace s = ""
    · simp [getSSHPortOrDefault, he, DefaultSSHPort]
    · simp [getSSHPortOrDefault, he, h, DefaultSSHPort]
  · intro h
    have he : trimSpace s ≠ "" := by
      intro he; rw [he] at h; simp [parseUint16] at h
    simp [getSSHPortOrDefault, he, h, DefaultSSHPort]
  · intro p h hp
    have he : trimSpace s ≠ "" := by
      intro he; rw [he] at h; simp [parseUint16] at h
    have hz : p ≠ 0 := by omega
    simp [getSSHPortOrDefault, he, h, hz]

/-- Witness for C10 at concrete inputs. -/
theorem C10_port_resolution_total_witness :
    getSSHPortOrDefault " 2222 " = .ok 2222 ∧
    getSSHPortOrDefault "" = .ok 22 ∧
    getSSHPortOrDefault "0" = .ok 22 ∧
    getSSHPortOrDefault "70000" = .ok 22 ∧
    getSSHPortOrDefault "abc" = .ok 22 :=
  ⟨(C10_port_resolution_total " 2222 ").2.2.2.2 2222 (by decide) (by decide),
   (C10_port_resolution_total "").2.1 (by decide),
   (C10_port_resolution_total "0").2.2.2.1 (by decide),
   (C10_port_resolution_total "70000").2.2.1 (by decide),
   (C10_port_resolution_total "abc").2.2.1 (by decide)⟩

/-- **C2** — For every presented host key, the callback built from the
policy behaves as: under Ignore it accepts every key; under Strict it
accepts exactly when the known-hosts store contains a matching entry for
the host; under AcceptNew it appends the key of an unknown host to the
store and accepts, but rejects a key that differs from the store's
existing entry for that host.  (Both AcceptNew shapes are covered: the
wrapper over a configured path and `addUnknownHostsCallback` over the
default store.) -/
theorem C2_hostkey_policy_behavior :
    ∀ (env : HKEnv) (cfg : Options) (S : KnownHostsStore) (host key : String),
      (cfg.knownHostsPolicy = .ignore →
        createHostKeyVerificationCallback env cfg = .ok .insecureIgnore ∧
        runHostKeyCB .insecureIgnore host key S true = (none, S)) ∧
      (cfg.knownHostsPolicy = .strict → cfg.knownHostsPath ≠ "" →
        env.loadStore = some S →
        createHostKeyVerificationCallback env cfg = .ok (.knownHostsStrict S) ∧
        ((runHostKeyCB (.knownHostsStrict S) host key S true).1 = none ↔
          (host, key) ∈ S) ∧
        (runHostKeyCB (.knownHostsStrict S) host key S true).2 = S) ∧
      (cfg.knownHostsPolicy = .acceptNew → cfg.knownHostsPath ≠ "" →
        env.loadStore = some S →
        createHostKeyVerificationCallback env cfg =
          .ok (.acceptNewWrapped S cfg.knownHostsPath) ∧
        ((∀ k', (host, k') ∉ S) →
          runHostKeyCB (.acceptNewWrapped S cfg.knownHostsPath) host key S true =
            (none, S ++ [(host, key)])) ∧
        ((host, key) ∈ S →
          runHostKeyCB (.acceptNewWrapped S cfg.knownHostsPath) host key S true =
            (none, S)) ∧
        ((∃ k', (host, k') ∈ S) → (host, key) ∉ S →
          ∃ e, runHostKeyCB (.acceptNewWrapped S cfg.knownHostsPath) host key S true =
            (some e, S))) ∧
      (cfg.knownHostsPolicy = .acceptNew → cfg.knownHostsPath = "" →
        createHostKeyVerificationCallback env cfg = .ok .acceptNewDefault ∧
        ((∀ k', (host, k') ∉ S) →
          runHostKeyCB .acceptNewDefault host key S true = (none, S ++ [(host, key)])) ∧
        ((host, key) ∈ S →
          runHostKeyCB .acceptNewDefault host key S true = (none, S)) ∧
        ((∃ k', (host, k') ∈ S) → (host, key) ∉ S →
          ∃ e, runHostKeyCB .acceptNewDefault host key S true = (some e, S))) := by
  intro env cfg S host key
  refine ⟨?_, ?_, ?_, ?_⟩
  · intro hpol
    exact ⟨by simp [createHostKeyVerificationCallback, hpol], rfl⟩
  · intro hpol hpath hload
    refine ⟨by simp [createHostKeyVerificationCallback, hpol, hpath, hload], ?_, ?_⟩
    · simpa [runHostKeyCB] using khCheck_none_iff S host key
    · rfl
  · intro hpol hpath hload
    refine ⟨by simp [createHostKeyVerificationCallback, hpol, hpath, hload], ?_, ?_, ?_⟩
    · intro hnone
      have hwant : khWant S host = [] := (khWant_nil_iff S host).mpr hnone
      have hno : khCheck S host key = some (.keyError []) := by
        unfold khCheck
        rw [hwant]
        simp
      simp [runHostKeyCB, hno]
    · intro hmem
      have h0 : khCheck S host key = none := (khCheck_none_iff S host key).mpr hmem
      simp [runHostKeyCB, h0]
    · rintro ⟨k', hk'⟩ hnot
      have h0 : khCheck S host key = some (.keyError (khWant S host)) := by
        unfold khCheck
        have : key ∉ khWant S host := fun hm => hnot ((mem_khWant S host key).mp hm)
        simp [this]
      have hne : khWant S host ≠ [] := by
        intro h
        exact (khWant_nil_iff S host).mp h k' hk'
      refine ⟨.keyError (khWant S host), ?_⟩
      have hempty : (khWant S host).isEmpty = false := by
        cases hw : khWant S host with
        | nil => exact absurd hw hne
        | cons a l => rfl
      simp [runHostKeyCB, h0, hempty]
  · intro hpol hpath
    refine ⟨by simp [createHostKeyVerificationCallback, hpol, hpath], ?_, ?_, ?_⟩
    · intro hnone
      have hwant : khWant S host = [] := (khWant_nil_iff S host).mpr hnone
      have hno : khCheck S host key = some (.keyError []) := by
        unfold khCheck
        rw [hwant]
        simp
      have hfound : S.any (fun e => e.1 == host) = false := by
        rw [List.any_eq_false]
        rintro ⟨a, b⟩ hmem
        simp only [beq_iff_eq]
        intro ha
        subst ha
        exact hnone b hmem
      simp [runHostKeyCB, hno, hfound]
    · intro hmem
      have h0 : khCheck S host key = none := (khCheck_none_iff S host key).mpr hmem
      simp [runHostKeyCB, h0]
    · rintro ⟨k', hk'⟩ hnot
      have h0 : khCheck S host key = some (.keyError (khWant S host)) := by
        unfold khCheck
        have : key ∉ khWant S host := fun hm => hnot ((mem_khWant S host key).mp hm)
        simp [this]
      have hfound : S.any (fun e => e.1 == host) = true := by
        rw [List.any_eq_true]
        exact ⟨(host, k'), hk', by simp⟩
      refine ⟨.keyError (khWant S host), ?_⟩
      simp [runHostKeyCB, h0, hfound]

/-- Witness for C2: under AcceptNew (configured path), an unknown host is
appended and accepted; under Strict, a mismatched key is rejected. -/
theorem C2_hostkey_policy_behavior_witness :
    runHostKeyCB (.acceptNewWrapped [("h1", "k1")] "/kh") "h2" "k2"
      [("h1", "k1")] true = (none, [("h1", "k1"), ("h2", "k2")]) ∧
    ((runHostKeyCB (.knownHostsStrict [("h1", "k1")]) "h1" "k9"
      [("h1", "k1")] true).1 = none ↔ ("h1", "k9") ∈ [("h1", "k1")]) := by
  have h := C2_hostkey_policy_behavior ⟨some [("h1", "k1")], none⟩
    { knownHostsPolicy := .acceptNew, knownHostsPath := "/kh" }
    [("h1", "k1")] "h2" "k2"
  have h2 := C2_hostkey_policy_behavior ⟨some [("h1", "k1")], none⟩
    { knownHostsPolicy := .strict, knownHostsPath := "/kh" }
    [("h1", "k1")] "h1" "k9"
  refine ⟨(h.2.2.1 rfl (by decide) rfl).2.1 ?_, (h2.2.1 rfl (by decide) rfl).2.1⟩
  intro k' hk'
  simp only [List.mem_singleton, Prod.mk.injEq] at hk'
  exact absurd hk'.1 (by decide)

namespace DevpodSSH

/-! ## The native backend: `GoSSHClient` (`pkg/ssh/util.go`, lines 548-824)

State and effects.  Time is modelled in nanoseconds as `Nat` (Go
`time.Duration` is an integer nanosecond count; `time.Since(t) = now - t`,
and with a monotone clock the truncated `Nat` subtraction agrees with Go).
A connection handle is a `Nat` identifier. -/

/-- `config_parser.go` `SSHConfig`. -/
structure SSHConfigRec where
  hostname : String := ""
  user : String := ""
  port : String := ""
  identityFiles : List String := []
deriving DecidableEq, Repr

/-- The `ssh.ClientConfig` that `Connect` builds (util.go lines 593-599). -/
structure ClientConfigM where
  user : String
  auth : List String
  hostKeyCallback : HostKeyCB
  timeoutSeconds : Nat
deriving DecidableEq, Repr

/-- Filesystem effects of `loadAuthMethods`: `os.Stat` not-exist test,
`os.ReadFile` result, and `ssh.ParsePrivateKey` on the contents. -/
structure KeyFS where
  statNotExist : String → Bool
  readFile : String → Option String
  parseKey : String → Option String

/-- `GoSSHClient.loadAuthMethods` (util.go lines 793-824): best-effort over
the identity files, `KeyFormatError` when nothing loads. -/
def loadAuthMethods (fs : KeyFS) (identityFiles : List String) :
    Except GoErr (List String) :=
  let methods := identityFiles.foldl (fun acc keyPath =>
    if fs.statNotExist keyPath then acc
    else
      match fs.readFile keyPath with
      | none => acc
      | some contents =>
        match fs.parseKey contents with
        | none => acc
        | some signer => acc ++ [signer]) []
  if methods.isEmpty then .error (.keyFormat "no valid keys found")
  else .ok methods

/-- Effects of one `Connect` call: the `ParseSSHConfig` result, key
filesystem, TCP reachability, the host key the server presents during the
handshake, the known-hosts file content, whether appending to it succeeds,
the new connection's identity and `time.Now()`. -/
structure ConnectEnv where
  parseSSHConfig : Except GoErr SSHConfigRec
  keyFS : KeyFS
  tcpOk : Bool
  serverKey : String
  knownHostsFile : KnownHostsStore := []
  addOk : Bool := true
  connId : Nat
  now : Nat

/-- `net.JoinHostPort`. -/
def joinHostPort (host port : String) : String :=
  host ++ ":" ++ port

/-- Model of `ssh.Dial`: fails on TCP failure; otherwise runs the
handshake, which invokes the configured host-key callback on the presented
server key and aborts with that callback's error when it rejects. -/
def sshDial (env : ConnectEnv) (_addr : String) (cfg : ClientConfigM) :
    Except GoErr Nat :=
  if env.tcpOk then
    match (runHostKeyCB cfg.hostKeyCallback _addr env.serverKey
        env.knownHostsFile env.addOk).1 with
    | some e => .error e
    | none => .ok env.connId
  else .error (.msg "dial tcp: connection failed")

/-- The mutable fields of `GoSSHClient` plus its immutable config. -/
structure GoSSHClient where
  config : Options
  sshClient : Option Nat := none
  sshConfig : Option ClientConfigM := none
  remoteAddr : String := ""
  lastUsed : Nat := 0
  connectedAt : Nat := 0
  maxIdleTime : Nat
  maxLifetime : Nat

def nsPerSecond : Nat := 1000000000

/-- `NewGoSSHClient` (util.go lines 564-572): idle threshold 5 minutes,
lifetime threshold 1 hour. -/
def NewGoSSHClient (cfg : Options) : GoSSHClient :=
  { config := cfg
    maxIdleTime := 5 * 60 * nsPerSecond
    maxLifetime := 60 * 60 * nsPerSecond }

/-- The port override step of `Connect` (util.go lines 584-586). -/
def adjustPort (cfg : Options) (scfg : SSHConfigRec) : SSHConfigRec :=
  if cfg.port ≠ "" ∧ cfg.port ≠ "22" then { scfg with port := cfg.port }
  else scfg

@[simp] theorem adjustPort_identityFiles (cfg : Options) (scfg : SSHConfigRec) :
    (adjustPort cfg scfg).identityFiles = scfg.identityFiles := by
  unfold adjustPort
  split <;> rfl

@[simp] theorem adjustPort_user (cfg : Options) (scfg : SSHConfigRec) :
    (adjustPort cfg scfg).user = scfg.user := by
  unfold adjustPort
  split <;> rfl

/-- `GoSSHClient.Connect` (util.go lines 574-612).  The host-key callback
it installs is the source's literal `ssh.InsecureIgnoreHostKey()`
(line 597); the configured known-hosts policy is not consulted. -/
def GoSSHClient.Connect (env : ConnectEnv) (st : GoSSHClient) :
    Except GoErr GoSSHClient :=
  match env.parseSSHConfig with
  | .error e => .error (.wrap "parse ssh config" e)
  | .ok sshConfig0 =>
    let sshConfig := adjustPort st.config sshConfig0
    match loadAuthMethods env.keyFS sshConfig.identityFiles with
    | .error e => .error e
    | .ok authMethods =>
      let clientCfg : ClientConfigM :=
        { user := sshConfig.user
          auth := authMethods
          hostKeyCallback := .insecureIgnore
          timeoutSeconds := 30 }
      let remoteAddr := joinHostPort sshConfig.hostname sshConfig.port
      match sshDial env remoteAddr clientCfg with
      | .error e => .error (.wrap "ssh dial" e)
      | .ok conn =>
        .ok { st with
          sshClient := some conn
          sshConfig := some clientCfg
          remoteAddr := remoteAddr
          connectedAt := env.now
          lastUsed := env.now }

/-- `GoSSHClient.isStale` (util.go lines 666-688). -/
def GoSSHClient.isStale (st : GoSSHClient) (now : Nat) : Bool :=
  match st.sshClient with
  | none => true
  | some _ =>
    if now - st.lastUsed > st.maxIdleTime then true
    else if now - st.connectedAt > st.maxLifetime then true
    else false

/-- `GoSSHClient.reconnect` (util.go lines 690-700): close, then Connect. -/
def GoSSHClient.reconnect (env : ConnectEnv) (st : GoSSHClient) :
    Except GoErr GoSSHClient :=
  GoSSHClient.Connect env { st with sshClient := none }

/-- `GoSSHClient.ensureConnected` (util.go lines 702-721): staleness check,
reconnect when stale, refresh `lastUsed`, hand out the client. -/
def GoSSHClient.ensureConnected (env : ConnectEnv) (st : GoSSHClient)
    (now : Nat) : Except GoErr (Nat × GoSSHClient) :=
  let staleStep : Except GoErr GoSSHClient :=
    if st.isStale now then
      match st.reconnect env with
      | .error e => .error (.wrap "reconnect failed" e)
      | .ok st' => .ok st'
    else .ok st
  match staleStep with
  | .error e => .error e
  | .ok st' =>
    let st'' := { st' with lastUsed := now }
    match st''.sshClient with
    | none => .error (.msg "not connected")
    | some client => .ok (client, st'')

end DevpodSSH

namespace DevpodSSH

/-- The stderr marker the repository sniffs for a non-POSIX remote shell. -/
def nonPosixMarker : String := "fish: Unsupported"

/-- Effects of one native `Execute` call: the direct `session.Run` result
and its captured stderr, plus the effects of the script-upload fallback
(temp-file creation/write/close, upload, the script session and run). -/
structure RunEnv where
  sessionOk : Bool := true
  runErr : Option GoErr := none
  stderrOut : String := ""
  tmpCreateOk : Bool := true
  tmpName : String := "/tmp/devpod-command-123"
  writeOk : Bool := true
  closeOk : Bool := true
  scriptUploadOk : Bool := true
  scriptSessionOk : Bool := true
  scriptRunErr : Option GoErr := none

/-- Observables of one native `Execute` call. -/
structure ExecTrace where
  result : Option GoErr
  ranDirect : Bool
  usedScript : Bool
  scriptRemotePath : String := ""
  scriptCommand : String := ""
  finalState : GoSSHClient

/-- `GoSSHClient.executeViaScript` (util.go lines 752-791): write the
command to a local temp file, upload it to `/tmp/<base>`, run
`/bin/sh <path>; rm -f <path>` in a fresh session. -/
def GoSSHClient.executeViaScript (cenv : ConnectEnv) (renv : RunEnv)
    (st : GoSSHClient) (now : Nat) (_command : String) : ExecTrace :=
  match st.ensureConnected cenv now with
  | .error e =>
    { result := some e, ranDirect := false, usedScript := true, finalState := st }
  | .ok (_client, st') =>
    if !renv.tmpCreateOk then
      { result := some (.wrap "create temp file" (.msg "tempfile failed"))
        ranDirect := false, usedScript := true, finalState := st' }
    else if !renv.writeOk then
      { result := some (.wrap "write script" (.msg "write failed"))
        ranDirect := false, usedScript := true, finalState := st' }
    else if !renv.closeOk then
      { result := some (.wrap "close temp file" (.msg "close failed"))
        ranDirect := false, usedScript := true, finalState := st' }
    else
      let remotePath := "/tmp/" ++ baseName renv.tmpName
      if !renv.scriptUploadOk then
        { result := some (.wrap "upload script" (.msg "upload failed"))
          ranDirect := false, usedScript := true, finalState := st' }
      else
        let cleanupCmd := "/bin/sh " ++ remotePath ++ "; rm -f " ++ remotePath
        if !renv.scriptSessionOk then
          { result := some (.wrap "create session" (.msg "session failed"))
            ranDirect := false, usedScript := true, finalState := st' }
        else
          { result := renv.scriptRunErr, ranDirect := false, usedScript := true
            scriptRemotePath := remotePath, scriptCommand := cleanupCmd
            finalState := st' }

/-- `GoSSHClient.Execute` (util.go lines 614-641).  The fallback runs only
when `session.Run` returned an error AND the captured stderr contains the
marker; a clean run returns `nil` without looking at stderr's content
having mattered, and an error without the marker is returned as-is. -/
def GoSSHClient.Execute (cenv : ConnectEnv) (renv : RunEnv)
    (st : GoSSHClient) (now : Nat) (command : String) : ExecTrace :=
  match st.ensureConnected cenv now with
  | .error e =>
    { result := some e, ranDirect := false, usedScript := false, finalState := st }
  | .ok (_client, st') =>
    if !renv.sessionOk then
      { result := some (.wrap "create session" (.msg "session failed"))
        ranDirect := false, usedScript := false, finalState := st' }
    else
      match renv.runErr with
      | some e =>
        if goContains renv.stderrOut nonPosixMarker then
          let t := GoSSHClient.executeViaScript cenv renv st' now command
          { t with ranDirect := true }
        else
          { result := some e, ranDirect := true, usedScript := false
            finalState := st' }
      | none =>
        { result := none, ranDirect := true, usedScript := false
          finalState := st' }

/-- Effects of `uploadFile` (util.go lines 723-749). -/
structure UploadEnv where
  sftpOk : Bool := true
  localOpenOk : Bool := true
  remoteCreateOk : Bool := true
  copyOk : Bool := true

/-- `GoSSHClient.uploadFile`: each failure wrapped with which side failed. -/
def uploadFile (uenv : UploadEnv) : Option GoErr :=
  if !uenv.sftpOk then some (.wrap "create sftp client" (.msg "sftp failed"))
  else if !uenv.localOpenOk then some (.wrap "open local file" (.msg "open failed"))
  else if !uenv.remoteCreateOk then
    some (.wrap "create remote file" (.msg "create failed"))
  else if !uenv.copyOk then some (.wrap "copy file" (.msg "copy failed"))
  else none

/-- Observables of one native `Upload` call. -/
structure UploadTrace where
  result : Option GoErr
  attempted : Bool
  finalState : GoSSHClient

/-- `GoSSHClient.Upload` (util.go lines 644-651). -/
def GoSSHClient.Upload (cenv : ConnectEnv) (uenv : UploadEnv)
    (st : GoSSHClient) (now : Nat) : UploadTrace :=
  match st.ensureConnected cenv now with
  | .error e => { result := some e, attempted := false, finalState := st }
  | .ok (_client, st') =>
    { result := uploadFile uenv, attempted := true, finalState := st' }

/-- `sshDial` only ever hands back the environment's connection id. -/
theorem sshDial_ok_val (env : ConnectEnv) (addr : String) (cfg : ClientConfigM)
    (v : Nat) (h : sshDial env addr cfg = .ok v) : v = env.connId := by
  unfold sshDial at h
  by_cases htcp : env.tcpOk
  · rw [if_pos htcp] at h
    cases hk : (runHostKeyCB cfg.hostKeyCallback addr env.serverKey
        env.knownHostsFile env.addOk).1 with
    | none => rw [hk] at h; exact (Except.ok.inj h).symm
    | some e => rw [hk] at h; exact Except.noConfusion h
  · rw [if_neg htcp] at h; exact Except.noConfusion h

/-- Every successful `Connect` installed `InsecureIgnoreHostKey` and
stamped the clock. -/
theorem Connect_ok_shape (env : ConnectEnv) (st st' : GoSSHClient)
    (hok : GoSSHClient.Connect env st = .ok st') :
    (∃ u a, st'.sshConfig = some ⟨u, a, .insecureIgnore, 30⟩) ∧
    st'.sshClient = some env.connId ∧
    st'.connectedAt = env.now ∧ st'.lastUsed = env.now := by
  unfold GoSSHClient.Connect at hok
  cases hp : env.parseSSHConfig with
  | error e => rw [hp] at hok; exact Except.noConfusion hok
  | ok scfg0 =>
    rw [hp] at hok
    simp only [adjustPort_identityFiles, adjustPort_user] at hok
    cases hla : loadAuthMethods env.keyFS scfg0.identityFiles with
    | error e => rw [hla] at hok; exact Except.noConfusion hok
    | ok ams =>
      rw [hla] at hok
      simp only at hok
      generalize hd : sshDial env _ _ = dres at hok
      cases dres with
      | error e => exact Except.noConfusion hok
      | ok v =>
        have hv := sshDial_ok_val _ _ _ _ hd
        subst hv
        have heq := Except.ok.inj hok
        refine ⟨⟨scfg0.user, ams, ?_⟩, ?_, ?_, ?_⟩ <;> rw [← heq]

end DevpodSSH

namespace DevpodSSH

/-- A Bool view of `Except` success. -/
def exceptIsOk {α : Type} : Except GoErr α → Bool
  | .ok _ => true
  | .error _ => false

/-- `Connect` succeeds whenever config parsing, key loading and the TCP
dial succeed — for every known-hosts policy and every store content,
because the installed callback is `InsecureIgnoreHostKey`. -/
theorem Connect_succeeds_without_hostkey_check (env : ConnectEnv)
    (st : GoSSHClient) (scfg : SSHConfigRec) (ams : List String)
    (hp : env.parseSSHConfig = .ok scfg)
    (hla : loadAuthMethods env.keyFS scfg.identityFiles = .ok ams)
    (htcp : env.tcpOk = true) :
    GoSSHClient.Connect env st = .ok { st with
      sshClient := some env.connId
      sshConfig := some ⟨scfg.user, ams, .insecureIgnore, 30⟩
      remoteAddr := joinHostPort (adjustPort st.config scfg).hostname
        (adjustPort st.config scfg).port
      connectedAt := env.now
      lastUsed := env.now } := by
  unfold GoSSHClient.Connect
  rw [hp]
  simp only [adjustPort_identityFiles, adjustPort_user, hla]
  have hdial : sshDial env (joinHostPort (adjustPort st.config scfg).hostname
      (adjustPort st.config scfg).port)
      ⟨scfg.user, ams, .insecureIgnore, 30⟩ = .ok env.connId := by
    simp [sshDial, htcp, runHostKeyCB]
  rw [hdial]

/-- The profile of the spec's end-to-end scenario: `user@example.com`,
port 22, Strict policy. -/
def c1Profile : Options :=
  { host := "user@example.com"
    port := "22"
    knownHostsPolicy := .strict
    knownHostsPath := "/home/u/.ssh/known_hosts" }

/-- A connect environment where everything but host-key trust is healthy
and the known-hosts store is empty. -/
def c1Env : ConnectEnv :=
  { parseSSHConfig := .ok
      { hostname := "example.com", user := "user", port := "22"
        identityFiles := ["/home/u/.ssh/id_ed25519"] }
    keyFS :=
      { statNotExist := fun _ => false
        readFile := fun _ => some "PEMDATA"
        parseKey := fun _ => some "ed25519-signer" }
    tcpOk := true
    serverKey := "AAAA-server-key"
    knownHostsFile := []
    addOk := true
    connId := 1
    now := 1000 }

end DevpodSSH

/-- Counterexample to **C1**: the profile `{host: "user@example.com",
port: "22"}` with policy Strict and an *empty* known-hosts store, against
a reachable server presenting a key no store entry matches — the claim
says `Connect()` must fail with a host-key rejection, but
`GoSSHClient.Connect` succeeds, because it installs
`ssh.InsecureIgnoreHostKey()` (util.go line 597) instead of a callback
derived from the policy. -/
theorem C1_counterexample :
    c1Profile.knownHostsPolicy = .strict ∧
    c1Env.knownHostsFile = [] ∧
    exceptIsOk (GoSSHClient.Connect c1Env (NewGoSSHClient c1Profile)) = true := by
  refine ⟨rfl, rfl, ?_⟩
  rw [Connect_succeeds_without_hostkey_check c1Env (NewGoSSHClient c1Profile)
    { hostname := "example.com", user := "user", port := "22"
      identityFiles := ["/home/u/.ssh/id_ed25519"] }
    ["ed25519-signer"] rfl rfl rfl]
  rfl

/-- **C1** (amended) — `GoSSHClient.Connect` does not derive a host-key
callback from the configured policy: every successful `Connect` carries
`InsecureIgnoreHostKey` in its client config, and whenever config parsing,
key loading and the TCP dial succeed, `Connect` succeeds for every policy
and every known-hosts store content — in particular a Strict profile with
an empty store is *not* rejected. -/
theorem C1_connect_skips_hostkey_verification :
    ∀ (env : ConnectEnv) (st : GoSSHClient),
      (∀ st', GoSSHClient.Connect env st = .ok st' →
        ∃ u a, st'.sshConfig = some ⟨u, a, .insecureIgnore, 30⟩) ∧
      (∀ scfg ams, env.parseSSHConfig = .ok scfg →
        loadAuthMethods env.keyFS scfg.identityFiles = .ok ams →
        env.tcpOk = true →
        exceptIsOk (GoSSHClient.Connect env st) = true) := by
  intro env st
  constructor
  · intro st' hok
    exact (Connect_ok_shape env st st' hok).1
  · intro scfg ams hp hla htcp
    rw [Connect_succeeds_without_hostkey_check env st scfg ams hp hla htcp]
    rfl

/-- Witness for the amended C1 at the concrete scenario environment. -/
theorem C1_connect_skips_hostkey_verification_witness :
    exceptIsOk (GoSSHClient.Connect c1Env (NewGoSSHClient c1Profile)) = true :=
  (C1_connect_skips_hostkey_verification c1Env (NewGoSSHClient c1Profile)).2
    { hostname := "example.com", user := "user", port := "22"
      identityFiles := ["/home/u/.ssh/id_ed25519"] }
    ["ed25519-signer"] rfl rfl rfl

namespace DevpodSSH

/-- The staleness predicate in disjunctive form: no live connection, idle
over the idle threshold, or age over the lifetime threshold. -/
theorem isStale_iff (st : GoSSHClient) (now : Nat) :
    st.isStale now = true ↔
      (st.sshClient = none ∨ now - st.lastUsed > st.maxIdleTime ∨
       now - st.connectedAt > st.maxLifetime) := by
  unfold GoSSHClient.isStale
  cases hc : st.sshClient with
  | none => simp
  | some c =>
    by_cases h1 : now - st.lastUsed > st.maxIdleTime
    · simp [h1]
    · by_cases h2 : now - st.connectedAt > st.maxLifetime
      · simp [h1, h2]
      · simp [h1, h2]

/-- A fresh (non-stale) pass of `ensureConnected`: no reconnect, the
existing client is handed out and `lastUsed` is refreshed. -/
theorem ensureConnected_not_stale (env : ConnectEnv) (st : GoSSHClient)
    (now : Nat) (client : Nat) (hc : st.sshClient = some client)
    (hstale : st.isStale now = false) :
    st.ensureConnected env now = .ok (client, { st with lastUsed := now }) := by
  unfold GoSSHClient.ensureConnected
  rw [hstale]
  simp only [Bool.false_eq_true, if_false]
  simp [hc]

/-- A stale pass whose close-then-`Connect` fails: `ensureConnected`
returns the wrapped reconnect error. -/
theorem ensureConnected_stale_error (env : ConnectEnv) (st : GoSSHClient)
    (now : Nat) (e : GoErr) (hstale : st.isStale now = true)
    (hconn : GoSSHClient.Connect env { st with sshClient := none } = .error e) :
    st.ensureConnected env now = .error (.wrap "reconnect failed" e) := by
  unfold GoSSHClient.ensureConnected GoSSHClient.reconnect
  rw [hstale]
  simp [hconn]

/-- A stale pass whose close-then-`Connect` succeeds: the fresh connection
is handed out and `lastUsed` is refreshed. -/
theorem ensureConnected_stale_ok (env : ConnectEnv) (st st' : GoSSHClient)
    (now : Nat) (hstale : st.isStale now = true)
    (hconn : GoSSHClient.Connect env { st with sshClient := none } = .ok st') :
    st.ensureConnected env now = .ok (env.connId, { st' with lastUsed := now }) := by
  have hshape := Connect_ok_shape env _ st' hconn
  unfold GoSSHClient.ensureConnected GoSSHClient.reconnect
  rw [hstale]
  simp only [if_true]
  rw [hconn]
  simp [hshape.2.1]

/-- Every successful `ensureConnected` leaves `lastUsed = now`. -/
theorem ensureConnected_refreshes_lastUsed (env : ConnectEnv)
    (st : GoSSHClient) (now : Nat) (client : Nat) (st' : GoSSHClient)
    (h : st.ensureConnected env now = .ok (client, st')) :
    st'.lastUsed = now := by
  unfold GoSSHClient.ensureConnected at h
  by_cases hstale : st.isStale now = true
  · rw [hstale] at h
    simp only [if_true] at h
    cases hr : st.reconnect env with
    | error e => rw [hr] at h; exact Except.noConfusion h
    | ok st1 =>
      rw [hr] at h
      simp only at h
      cases hc : st1.sshClient with
      | none => rw [hc] at h; exact Except.noConfusion h
      | some c =>
        rw [hc] at h
        have := Except.ok.inj h
        rw [← (Prod.mk.injEq _ _ _ _).mp this |>.2]
  · rw [Bool.not_eq_true] at hstale
    rw [hstale] at h
    simp only [Bool.false_eq_true, if_false] at h
    cases hc : st.sshClient with
    | none => rw [hc] at h; exact Except.noConfusion h
    | some c =>
      rw [hc] at h
      have := Except.ok.inj h
      rw [← (Prod.mk.injEq _ _ _ _).mp this |>.2]

end DevpodSSH

/-- **C6** — Before every `Execute` and `Upload` on the native backend the
session is staleness-checked: a session is stale when the connection
handle is absent, the idle time since `lastUsed` exceeds 5 minutes, or the
age since `connectedAt` exceeds 1 hour (the thresholds `NewGoSSHClient`
sets); a stale session is closed and reconnected via `Connect` before the
operation proceeds (and the operation does not proceed if that fails); on
every successful staleness pass `lastUsed` is refreshed to the current
time. -/
theorem C6_staleness_before_operations :
    ∀ (cfg : Options) (env : ConnectEnv) (st : GoSSHClient) (now : Nat)
      (renv : RunEnv) (uenv : UploadEnv) (command : String),
      ((NewGoSSHClient cfg).maxIdleTime = 5 * 60 * 1000000000 ∧
       (NewGoSSHClient cfg).maxLifetime = 60 * 60 * 1000000000) ∧
      (st.isStale now = true ↔
        (st.sshClient = none ∨ now - st.lastUsed > st.maxIdleTime ∨
         now - st.connectedAt > st.maxLifetime)) ∧
      (∀ client, st.sshClient = some client → st.isStale now = false →
        st.ensureConnected env now = .ok (client, { st with lastUsed := now })) ∧
      (∀ e, st.isStale now = true →
        GoSSHClient.Connect env { st with sshClient := none } = .error e →
        st.ensureConnected env now = .error (.wrap "reconnect failed" e) ∧
        (GoSSHClient.Execute env renv st now command).ranDirect = false ∧
        (GoSSHClient.Execute env renv st now command).usedScript = false ∧
        (GoSSHClient.Upload env uenv st now).attempted = false) ∧
      (∀ st', st.isStale now = true →
        GoSSHClient.Connect env { st with sshClient := none } = .ok st' →
        st.ensureConnected env now =
          .ok (env.connId, { st' with lastUsed := now })) ∧
      (∀ client st', st.ensureConnected env now = .ok (client, st') →
        st'.lastUsed = now) := by
  intro cfg env st now renv uenv command
  refine ⟨⟨rfl, rfl⟩, isStale_iff st now, ?_, ?_, ?_, ?_⟩
  · intro client hc hstale
    exact ensureConnected_not_stale env st now client hc hstale
  · intro e hstale hconn
    have hens := ensureConnected_stale_error env st now e hstale hconn
    refine ⟨hens, ?_, ?_, ?_⟩
    · unfold GoSSHClient.Execute
      rw [hens]
    · unfold GoSSHClient.Execute
      rw [hens]
    · unfold GoSSHClient.Upload
      rw [hens]
  · intro st' hstale hconn
    exact ensureConnected_stale_ok env st st' now hstale hconn
  · intro client st' h
    exact ensureConnected_refreshes_lastUsed env st now client st' h

/-- Witness for C6: a session whose connection is 6 minutes idle is stale;
with a failing reconnect the operation does not proceed. -/
theorem C6_staleness_before_operations_witness :
    ((NewGoSSHClient c1Profile).maxIdleTime = 5 * 60 * 1000000000) ∧
    ({ NewGoSSHClient c1Profile with
        sshClient := some 7
        lastUsed := 0
        connectedAt := 0 } : GoSSHClient).isStale (360 * 1000000000) = true ∧
    (({ NewGoSSHClient c1Profile with
        sshClient := some 7
        lastUsed := 0
        connectedAt := 0 } : GoSSHClient).ensureConnected
      { c1Env with parseSSHConfig := .error (.msg "no config") }
      (360 * 1000000000)) =
      .error (.wrap "reconnect failed" (.wrap "parse ssh config" (.msg "no config"))) := by
  have h := C6_staleness_before_operations c1Profile
    { c1Env with parseSSHConfig := .error (.msg "no config") }
    { NewGoSSHClient c1Profile with
        sshClient := some 7, lastUsed := 0, connectedAt := 0 }
    (360 * 1000000000) {} {} "ls"
  have hstale : ({ NewGoSSHClient c1Profile with
      sshClient := some 7, lastUsed := 0, connectedAt := 0 } : GoSSHClient).isStale
      (360 * 1000000000) = true := by
    rw [h.2.1]
    right
    left
    decide
  refine ⟨h.1.1, hstale, ?_⟩
  exact (h.2.2.2.1 (.wrap "parse ssh config" (.msg "no config")) hstale rfl).1

namespace DevpodSSH

/-! ## go-shellquote `Split` (github.com/kballard/go-shellquote)

External tokenizer used by the shell backend for `ExtraFlags`.  Modelled
as the library's word state machine: split characters are space, tab and
newline; single quotes copy verbatim until the closing quote; double
quotes support the bash escapes `$ \x60 " \n \\`; a backslash escapes the
next character (an escaped newline is elided, one at end of input is an
unterminated escape).  Unterminated constructs are errors with the
library's message texts. -/

inductive SplitErr where
  | unterminatedSingle
  | unterminatedDouble
  | unterminatedEscape
deriving DecidableEq, Repr

def SplitErr.message : SplitErr → String
  | .unterminatedSingle => "Unterminated single-quoted string"
  | .unterminatedDouble => "Unterminated double-quoted string"
  | .unterminatedEscape => "Unterminated backslash-escape"

def isSplitChar (c : Char) : Bool :=
  c == ' ' || c == '\n' || c == '\t'

def isDoubleEscape (c : Char) : Bool :=
  c == '$' || c == '`' || c == '"' || c == '\n' || c == '\\'

/-- Tokenizer state: between words, inside a bare word, inside single
quotes, inside double quotes (each carrying the reversed word buffer). -/
inductive SState where
  | between
  | word (buf : List Char)
  | single (buf : List Char)
  | double (buf : List Char)

/-- The state machine of `shellquote.Split` (word accumulation in reverse,
words accumulated in reverse). -/
def splitAll : List Char → SState → List (List Char) →
    Except SplitErr (List (List Char))
  | [], .between, acc => .ok acc.reverse
  | [], .word buf, acc => .ok (buf.reverse :: acc).reverse
  | [], .single _, _ => .error .unterminatedSingle
  | [], .double _, _ => .error .unterminatedDouble
  | c :: rest, .between, acc =>
    if isSplitChar c then splitAll rest .between acc
    else if c == '\\' then
      match rest with
      | [] => .error .unterminatedEscape
      | '\n' :: r => splitAll r .between acc
      | c2 :: r => splitAll r (.word [c2]) acc
    else if c == '\'' then splitAll rest (.single []) acc
    else if c == '"' then splitAll rest (.double []) acc
    else splitAll rest (.word [c]) acc
  | c :: rest, .word buf, acc =>
    if isSplitChar c then splitAll rest .between (buf.reverse :: acc)
    else if c == '\\' then
      match rest with
      | [] => .error .unterminatedEscape
      | '\n' :: r => splitAll r (.word buf) acc
      | c2 :: r => splitAll r (.word (c2 :: buf)) acc
    else if c == '\'' then splitAll rest (.single buf) acc
    else if c == '"' then splitAll rest (.double buf) acc
    else splitAll rest (.word (c :: buf)) acc
  | c :: rest, .single buf, acc =>
    if c == '\'' then splitAll rest (.word buf) acc
    else splitAll rest (.single (c :: buf)) acc
  | c :: rest, .double buf, acc =>
    if c == '"' then splitAll rest (.word buf) acc
    else if c == '\\' then
      match rest with
      | [] => .error .unterminatedDouble
      | c2 :: r =>
        if isDoubleEscape c2 then
          if c2 == '\n' then splitAll r (.double buf) acc
          else splitAll r (.double (c2 :: buf)) acc
        else splitAll r (.double (c2 :: '\\' :: buf)) acc
    else splitAll rest (.double (c :: buf)) acc

/-- `shellquote.Split`. -/
def shellquoteSplit (s : String) : Except SplitErr (List String) :=
  match splitAll s.toList .between [] with
  | .error e => .error e
  | .ok words => .ok (words.map fun l => ⟨l⟩)

/-! ## The shell backend: `ShellSSHClient` (`pkg/ssh/shell_client.go`) -/

/-- `ShellSSHClient.getSSHCommand` (shell_client.go lines 84-102). -/
def getSSHCommand (cfg : Options) : Except GoErr (List String) :=
  let result := ["-oStrictHostKeyChecking=no", "-oBatchMode=yes"]
  let result := if cfg.port ≠ "22" then result ++ ["-p", cfg.port] else result
  if cfg.extraFlags ≠ "" then
    match shellquoteSplit cfg.extraFlags with
    | .error e => .error (.wrap "parse extra flags" (.msg e.message))
    | .ok flags => .ok (result ++ flags ++ [cfg.host])
  else .ok (result ++ [cfg.host])

/-- `ShellSSHClient.getSCPCommand` (shell_client.go lines 104-123). -/
def getSCPCommand (cfg : Options) (sourcefile destfile : String) :
    Except GoErr (List String) :=
  let result := ["-oStrictHostKeyChecking=no", "-oBatchMode=yes"]
  let result := if cfg.port ≠ "22" then result ++ ["-P", cfg.port] else result
  if cfg.extraFlags ≠ "" then
    match shellquoteSplit cfg.extraFlags with
    | .error e => .error (.wrap "parse extra flags" (.msg e.message))
    | .ok flags =>
      .ok (result ++ flags ++ [sourcefile, cfg.host ++ ":" ++ destfile])
  else .ok (result ++ [sourcefile, cfg.host ++ ":" ++ destfile])

/-- Effects of one shell `Execute`/`Upload` call. -/
structure ShellRunEnv where
  runErr : Option GoErr := none
  stderrOut : String := ""
  tmpCreateOk : Bool := true
  tmpName : String := "/tmp/devpod-command-456"
  writeOk : Bool := true
  scpErr : Option GoErr := none
  scriptRunErr : Option GoErr := none

/-- Observables of a shell-backend call: result and every external
process spawned (program, argument list), in order. -/
structure ShellTrace where
  result : Option GoErr
  spawned : List (String × List String)
  usedScript : Bool

/-- `ShellSSHClient.Upload` (shell_client.go lines 69-77). -/
def ShellSSHClient.Upload (cfg : Options) (env : ShellRunEnv)
    (localPath remotePath : String) : ShellTrace :=
  match getSCPCommand cfg localPath remotePath with
  | .error e => { result := some e, spawned := [], usedScript := false }
  | .ok args =>
    { result := env.scpErr, spawned := [("scp", args)], usedScript := false }

/-- `ShellSSHClient.copyCommandToRemote` (shell_client.go lines 151-173):
temp file, write, `Upload` to `/tmp/<base>`. -/
def ShellSSHClient.copyCommandToRemote (cfg : Options) (env : ShellRunEnv)
    (_command : String) : Except GoErr (String × List (String × List String)) :=
  if !env.tmpCreateOk then .error (.msg "create temp failed")
  else if !env.writeOk then .error (.msg "write temp failed")
  else
    let destfile := "/tmp/" ++ baseName env.tmpName
    let up := ShellSSHClient.Upload cfg env env.tmpName destfile
    match up.result with
    | some e => .error e
    | none => .ok (destfile, up.spawned)

/-- `ShellSSHClient.copyAndExecute` (shell_client.go lines 126-148):
upload the script, then run `ssh ... /bin/sh <script> ; rm -f <script>`. -/
def ShellSSHClient.copyAndExecute (cfg : Options) (env : ShellRunEnv)
    (command : String) : ShellTrace :=
  match ShellSSHClient.copyCommandToRemote cfg env command with
  | .error e => { result := some e, spawned := [], usedScript := true }
  | .ok (script, spawned1) =>
    match getSSHCommand cfg with
    | .error e => { result := some e, spawned := spawned1, usedScript := true }
    | .ok args =>
      let fullArgs := args ++ ["/bin/sh", script, ";", "rm", "-f", script]
      { result := env.scriptRunErr
        spawned := spawned1 ++ [("ssh", fullArgs)]
        usedScript := true }

/-- `ShellSSHClient.Execute` (shell_client.go lines 37-66).  Note the
source checks the non-POSIX marker only on the *success* path: an `err`
from `cmd.Run()` is logged and returned without the script fallback. -/
def ShellSSHClient.Execute (cfg : Options) (env : ShellRunEnv)
    (command : String) : ShellTrace :=
  match getSSHCommand cfg with
  | .error e => { result := some e, spawned := [], usedScript := false }
  | .ok args =>
    let fullArgs := args ++ [command]
    let spawned0 := [("ssh", fullArgs)]
    match env.runErr with
    | some e => { result := some e, spawned := spawned0, usedScript := false }
    | none =>
      if goContains env.stderrOut nonPosixMarker then
        let t := ShellSSHClient.copyAndExecute cfg env command
        { t with spawned := spawned0 ++ t.spawned }
      else { result := none, spawned := spawned0, usedScript := false }

end DevpodSSH

namespace DevpodSSH

theorem startsWith_append (pat t : List Char) :
    startsWithL pat (pat ++ t) = true := by
  induction pat with
  | nil => rfl
  | cons a as ih => simp [startsWithL, ih]

theorem hasSub_of_startsWith (pat l : List Char)
    (h : startsWithL pat l = true) : hasSubL pat l = true := by
  cases l with
  | nil =>
    cases pat with
    | nil => rfl
    | cons a as => exact absurd h (by simp [startsWithL])
  | cons c rest => simp [hasSubL, h]

/-- Anything of the form `"parse extra flags: " ++ s` contains
`"parse extra flags"`. -/
theorem contains_parse_extra_flags (s : String) :
    goContains ("parse extra flags: " ++ s) "parse extra flags" = true := by
  apply hasSub_of_startsWith
  have h1 : ("parse extra flags: " ++ s).toList =
      "parse extra flags".toList ++ (": ".toList ++ s.toList) := by
    have h2 : ("parse extra flags: " ++ s).toList =
        "parse extra flags: ".toList ++ s.toList := by
      simp [String.toList]
    rw [h2, show ("parse extra flags: ").toList =
      "parse extra flags".toList ++ ": ".toList from rfl, List.append_assoc]
  rw [h1]
  exact startsWith_append _ _

theorem shellquoteSplit_empty : shellquoteSplit "" = .ok [] := rfl

end DevpodSSH

/-- **C7** — For every configuration whose `ExtraFlags` string is
malformed under shell-quoting rules, shell-backend command construction
for both `Execute` (ssh) and `Upload` (scp) fails with an error whose
message contains `"parse extra flags"`, and no external process is
spawned. -/
theorem C7_malformed_extra_flags_no_spawn :
    ∀ (cfg : Options) (e : SplitErr) (env : ShellRunEnv)
      (command localPath remotePath : String),
      shellquoteSplit cfg.extraFlags = .error e →
      (getSSHCommand cfg = .error (.wrap "parse extra flags" (.msg e.message)) ∧
       goContains (GoErr.wrap "parse extra flags" (.msg e.message)).message
         "parse extra flags" = true) ∧
      getSCPCommand cfg localPath remotePath =
        .error (.wrap "parse extra flags" (.msg e.message)) ∧
      (ShellSSHClient.Execute cfg env command).spawned = [] ∧
      (ShellSSHClient.Execute cfg env command).result =
        some (.wrap "parse extra flags" (.msg e.message)) ∧
      (ShellSSHClient.Upload cfg env localPath remotePath).spawned = [] ∧
      (ShellSSHClient.Upload cfg env localPath remotePath).result =
        some (.wrap "parse extra flags" (.msg e.message)) := by
  intro cfg e env command localPath remotePath hsplit
  have hne : cfg.extraFlags ≠ "" := by
    intro h
    rw [h, shellquoteSplit_empty] at hsplit
    exact Except.noConfusion hsplit
  have hssh : getSSHCommand cfg =
      .error (.wrap "parse extra flags" (.msg e.message)) := by
    unfold getSSHCommand
    rw [if_pos hne, hsplit]
  have hscp : getSCPCommand cfg localPath remotePath =
      .error (.wrap "parse extra flags" (.msg e.message)) := by
    unfold getSCPCommand
    rw [if_pos hne, hsplit]
  have hmsg : goContains
      (GoErr.wrap "parse extra flags" (.msg e.message)).message
      "parse extra flags" = true := by
    show goContains ("parse extra flags: " ++ (GoErr.msg e.message).message)
      "parse extra flags" = true
    exact contains_parse_extra_flags _
  have hexec : ShellSSHClient.Execute cfg env command =
      { result := some (.wrap "parse extra flags" (.msg e.message))
        spawned := [], usedScript := false } := by
    unfold ShellSSHClient.Execute
    rw [hssh]
  have hup : ShellSSHClient.Upload cfg env localPath remotePath =
      { result := some (.wrap "parse extra flags" (.msg e.message))
        spawned := [], usedScript := false } := by
    unfold ShellSSHClient.Upload
    rw [hscp]
  exact ⟨⟨hssh, hmsg⟩, hscp, by rw [hexec], by rw [hexec], by rw [hup],
    by rw [hup]⟩

/-- Witness for C7 at the spec's concrete input `extraFlags =
"invalid'quote"`. -/
theorem C7_malformed_extra_flags_no_spawn_witness :
    (ShellSSHClient.Execute
      { host := "testuser@example.com", port := "22"
        extraFlags := "invalid\x27quote" } {} "ls").spawned = [] ∧
    (ShellSSHClient.Upload
      { host := "testuser@example.com", port := "22"
        extraFlags := "invalid\x27quote" } {} "/l" "/r").spawned = [] := by
  have h := C7_malformed_extra_flags_no_spawn
    { host := "testuser@example.com", port := "22"
      extraFlags := "invalid\x27quote" }
    .unterminatedSingle {} "ls" "/l" "/r" (by rfl)
  exact ⟨h.2.2.1, h.2.2.2.2.1⟩

namespace DevpodSSH

/-- Every branch of the native script fallback reports `usedScript`. -/
theorem executeViaScript_usedScript (cenv : ConnectEnv) (renv : RunEnv)
    (st : GoSSHClient) (now : Nat) (command : String) :
    (GoSSHClient.executeViaScript cenv renv st now command).usedScript = true := by
  unfold GoSSHClient.executeViaScript
  cases h : st.ensureConnected cenv now with
  | error e => rfl
  | ok p =>
    obtain ⟨client, st'⟩ := p
    simp only
    split
    · rfl
    · split
      · rfl
      · split
        · rfl
        · split
          · rfl
          · split <;> rfl

/-- Every branch of the shell script fallback reports `usedScript`. -/
theorem copyAndExecute_usedScript (cfg : Options) (env : ShellRunEnv)
    (command : String) :
    (ShellSSHClient.copyAndExecute cfg env command).usedScript = true := by
  unfold ShellSSHClient.copyAndExecute
  cases h : ShellSSHClient.copyCommandToRemote cfg env command with
  | error e => rfl
  | ok p =>
    obtain ⟨script, spawned1⟩ := p
    simp only
    cases hs : getSSHCommand cfg <;> rfl

/-- The successful native script fallback: remote path `/tmp/<base>`,
command `/bin/sh <path>; rm -f <path>`, result passed through. -/
theorem executeViaScript_mechanics (cenv : ConnectEnv) (renv : RunEnv)
    (st : GoSSHClient) (now : Nat) (command : String)
    (client : Nat) (st' : GoSSHClient)
    (hens : st.ensureConnected cenv now = .ok (client, st'))
    (h1 : renv.tmpCreateOk = true) (h2 : renv.writeOk = true)
    (h3 : renv.closeOk = true) (h4 : renv.scriptUploadOk = true)
    (h5 : renv.scriptSessionOk = true) :
    GoSSHClient.executeViaScript cenv renv st now command =
      { result := renv.scriptRunErr
        ranDirect := false
        usedScript := true
        scriptRemotePath := "/tmp/" ++ baseName renv.tmpName
        scriptCommand := "/bin/sh " ++ ("/tmp/" ++ baseName renv.tmpName) ++
          "; rm -f " ++ ("/tmp/" ++ baseName renv.tmpName)
        finalState := st' } := by
  unfold GoSSHClient.executeViaScript
  rw [hens]
  simp [h1, h2, h3, h4, h5]

end DevpodSSH

/-- Counterexample to **C8**: on the native backend the direct run
*succeeds* (`err == nil`) while stderr contains the non-POSIX marker —
the claim says the command must be re-run via the script-upload path, but
`GoSSHClient.Execute` returns the direct result without invoking the
fallback (util.go line 635 requires `err != nil` as well). -/
theorem C8_counterexample :
    goContains "fish: Unsupported use of \x27&&\x27" nonPosixMarker = true ∧
    (GoSSHClient.Execute c1Env
      { runErr := none, stderrOut := "fish: Unsupported use of \x27&&\x27" }
      { NewGoSSHClient c1Profile with
          sshClient := some 7, lastUsed := 1000, connectedAt := 1000 }
      1000 "echo hi").usedScript = false ∧
    (GoSSHClient.Execute c1Env
      { runErr := none, stderrOut := "fish: Unsupported use of \x27&&\x27" }
      { NewGoSSHClient c1Profile with
          sshClient := some 7, lastUsed := 1000, connectedAt := 1000 }
      1000 "echo hi").result = none := by
  refine ⟨by decide, ?_, ?_⟩ <;> rfl

/-- **C8** (amended) — The script-upload fallback is gated on the marker
*and* the direct run's error status, with opposite polarity on the two
backends: the native backend falls back exactly when the direct run
returned an error and stderr contains the marker, the shell backend
exactly when the ssh process succeeded and stderr contains the marker.
The fallback itself writes the command to a local temp file, uploads it to
`/tmp/<basename>`, executes `/bin/sh <path>` followed by `rm -f <path>`,
and Execute returns whatever the fallback returns. -/
theorem C8_script_fallback_conditions :
    ∀ (cenv : ConnectEnv) (renv : RunEnv) (st : GoSSHClient) (now : Nat)
      (command : String) (cfg : Options) (senv : ShellRunEnv),
      (∀ client st', st.ensureConnected cenv now = .ok (client, st') →
        renv.sessionOk = true →
        ((GoSSHClient.Execute cenv renv st now command).usedScript = true ↔
          (renv.runErr.isSome = true ∧
           goContains renv.stderrOut nonPosixMarker = true))) ∧
      (∀ client st', st.ensureConnected cenv now = .ok (client, st') →
        renv.tmpCreateOk = true → renv.writeOk = true → renv.closeOk = true →
        renv.scriptUploadOk = true → renv.scriptSessionOk = true →
        (GoSSHClient.executeViaScript cenv renv st now command).scriptRemotePath =
          "/tmp/" ++ baseName renv.tmpName ∧
        (GoSSHClient.executeViaScript cenv renv st now command).scriptCommand =
          "/bin/sh " ++ ("/tmp/" ++ baseName renv.tmpName) ++ "; rm -f " ++
            ("/tmp/" ++ baseName renv.tmpName) ∧
        (GoSSHClient.executeViaScript cenv renv st now command).result =
          renv.scriptRunErr ∧
        (renv.runErr.isSome = true →
          goContains renv.stderrOut nonPosixMarker = true →
          renv.sessionOk = true →
          (GoSSHClient.Execute cenv renv st now command).result =
            (GoSSHClient.executeViaScript cenv renv st' now command).result)) ∧
      (∀ args, getSSHCommand cfg = .ok args →
        ((ShellSSHClient.Execute cfg senv command).usedScript = true ↔
          (senv.runErr = none ∧
           goContains senv.stderrOut nonPosixMarker = true))) := by
  intro cenv renv st now command cfg senv
  refine ⟨?_, ?_, ?_⟩
  · intro client st' hens hses
    unfold GoSSHClient.Execute
    rw [hens]
    simp only [hses, Bool.not_true, Bool.false_eq_true, if_false]
    cases hr : renv.runErr with
    | none => simp
    | some e =>
      simp only [Option.isSome_some, true_and]
      by_cases hm : goContains renv.stderrOut nonPosixMarker = true
      · simp only [hm, if_true]
        simpa using executeViaScript_usedScript cenv renv st' now command
      · rw [Bool.not_eq_true] at hm
        simp [hm]
  · intro client st' hens h1 h2 h3 h4 h5
    have hmech := executeViaScript_mechanics cenv renv st now command client st'
      hens h1 h2 h3 h4 h5
    refine ⟨by rw [hmech], by rw [hmech], by rw [hmech], ?_⟩
    intro hrun hmark hses
    unfold GoSSHClient.Execute
    rw [hens]
    simp only [hses, Bool.not_true, Bool.false_eq_true, if_false]
    cases hr : renv.runErr with
    | none => rw [hr] at hrun; exact absurd hrun (by simp)
    | some e => simp only [hmark, if_true]
  · intro args hargs
    unfold ShellSSHClient.Execute
    rw [hargs]
    simp only
    cases hr : senv.runErr with
    | some e => simp
    | none =>
      simp only [true_and]
      by_cases hm : goContains senv.stderrOut nonPosixMarker = true
      · simp only [hm, if_true]
        simpa using copyAndExecute_usedScript cfg senv command
      · rw [Bool.not_eq_true] at hm
        simp [hm]

namespace DevpodSSH

/-- A live, fresh native session (connected and used at t=1000). -/
def c8State : GoSSHClient :=
  { NewGoSSHClient c1Profile with
      sshClient := some 7, lastUsed := 1000, connectedAt := 1000 }

/-- A direct run that failed with the non-POSIX marker on stderr. -/
def c8Renv : RunEnv :=
  { runErr := some (.msg "exit status 1")
    stderrOut := "fish: Unsupported use of \x27&&\x27" }

end DevpodSSH

/-- Witness for the amended C8: the native fallback fires on error+marker
and uses `/tmp/<basename>`; the shell fallback fires on success+marker. -/
theorem C8_script_fallback_conditions_witness :
    (GoSSHClient.Execute c1Env c8Renv c8State 1000 "echo hi").usedScript = true ∧
    (GoSSHClient.executeViaScript c1Env c8Renv c8State 1000
      "echo hi").scriptRemotePath = "/tmp/devpod-command-123" ∧
    (ShellSSHClient.Execute { host := "h", port := "22" }
      { runErr := none, stderrOut := "fish: Unsupported x" } "c").usedScript =
      true := by
  have h := C8_script_fallback_conditions c1Env c8Renv c8State 1000 "echo hi"
    { host := "h", port := "22" }
    { runErr := none, stderrOut := "fish: Unsupported x" }
  refine ⟨?_, ?_, ?_⟩
  · exact (h.1 7 { c8State with lastUsed := 1000 } (by rfl) rfl).mpr
      ⟨rfl, by decide⟩
  · exact (h.2.1 7 { c8State with lastUsed := 1000 } (by rfl) rfl rfl rfl rfl
      rfl).1
  · exact (h.2.2 ["-oStrictHostKeyChecking=no", "-oBatchMode=yes", "h"]
      (by rfl)).mpr ⟨rfl, by decide⟩

namespace DevpodSSH

/-! ## Remote OS detection (`pkg/ssh/util.go`, lines 165-190) -/

inductive OperatingSystem where
  | OSLinux
  | OSWindows
  | OSMac
  | OSUnknown
deriving DecidableEq, Repr

/-- The three diagnostic commands, in the order the source can run them. -/
inductive Probe where
  | uname
  | cmdVer
  | powershell
deriving DecidableEq, Repr

/-- Outcomes of the three remote invocations (`client.Run`):
`uname -s`, `cmd /c "ver"`, the PowerShell version probe. -/
structure OSProbeEnv where
  uname : Except GoErr String
  cmdVer : Except GoErr String
  powershell : Except GoErr String

/-- The Windows probes (the tail of `resolveOperatingSystemType`),
threading the list of probes invoked so far. -/
def windowsProbes (env : OSProbeEnv) (ps : List Probe) :
    (OperatingSystem × Option GoErr) × List Probe :=
  let ps := ps ++ [Probe.cmdVer]
  let afterCmd :=
    match env.cmdVer with
    | .ok out =>
      if goContains (toLowerS out) "windows" then
        some ((OperatingSystem.OSWindows, (none : Option GoErr)), ps)
      else none
    | .error _ => none
  match afterCmd with
  | some r => r
  | none =>
    let ps := ps ++ [Probe.powershell]
    match env.powershell with
    | .ok out =>
      if goContains (toLowerS out) "windows" then
        ((.OSWindows, none), ps)
      else ((.OSUnknown, some (.msg "could not determine remote OS")), ps)
    | .error _ => ((.OSUnknown, some (.msg "could not determine remote OS")), ps)

/-- `resolveOperatingSystemType`: `uname -s` first, lowercased and
trimmed, classifying on a "linux"/"darwin" substring; only on failure or
no match the `cmd.exe` probe, then the PowerShell probe, classifying
Windows on a "windows" substring; otherwise Unknown with an error.  The
second component of the result traces which probes ran, in order. -/
def resolveOperatingSystemType (env : OSProbeEnv) :
    (OperatingSystem × Option GoErr) × List Probe :=
  let ps := [Probe.uname]
  match env.uname with
  | .ok out =>
    let s := toLowerS (trimSpace out)
    if goContains s "linux" then ((.OSLinux, none), ps)
    else if goContains s "darwin" then ((.OSMac, none), ps)
    else windowsProbes env ps
  | .error _ => windowsProbes env ps

end DevpodSSH

/-- **C9** — Remote OS detection runs `uname -s` first and classifies
Linux or macOS on a case-insensitive substring match for "linux" or
"darwin"; only when that probe fails or matches neither does it run the
`cmd.exe` probe and then the PowerShell probe, classifying Windows on a
"windows" substring in either; if no probe classifies, it returns Unknown
together with an error. -/
theorem C9_os_probe_order :
    ∀ (env : OSProbeEnv),
      (∀ out, env.uname = .ok out →
        goContains (toLowerS (trimSpace out)) "linux" = true →
        resolveOperatingSystemType env = ((.OSLinux, none), [.uname])) ∧
      (∀ out, env.uname = .ok out →
        goContains (toLowerS (trimSpace out)) "linux" = false →
        goContains (toLowerS (trimSpace out)) "darwin" = true →
        resolveOperatingSystemType env = ((.OSMac, none), [.uname])) ∧
      (∀ out, env.uname = .ok out →
        goContains (toLowerS (trimSpace out)) "linux" = false →
        goContains (toLowerS (trimSpace out)) "darwin" = false →
        resolveOperatingSystemType env = windowsProbes env [.uname]) ∧
      (∀ e, env.uname = .error e →
        resolveOperatingSystemType env = windowsProbes env [.uname]) ∧
      (∀ out, env.cmdVer = .ok out →
        goContains (toLowerS out) "windows" = true →
        windowsProbes env [.uname] = ((.OSWindows, none), [.uname, .cmdVer])) ∧
      (∀ out2,
        (env.cmdVer.isOk = false ∨
          (env.cmdVer = .ok out2 ∧ goContains (toLowerS out2) "windows" = false)) →
        (∀ out, env.powershell = .ok out →
          goContains (toLowerS out) "windows" = true →
          windowsProbes env [.uname] =
            ((.OSWindows, none), [.uname, .cmdVer, .powershell])) ∧
        (∀ out, env.powershell = .ok out →
          goContains (toLowerS out) "windows" = false →
          windowsProbes env [.uname] =
            ((.OSUnknown, some (.msg "could not determine remote OS")),
             [.uname, .cmdVer, .powershell])) ∧
        (∀ e, env.powershell = .error e →
          windowsProbes env [.uname] =
            ((.OSUnknown, some (.msg "could not determine remote OS")),
             [.uname, .cmdVer, .powershell]))) := by
  intro env
  refine ⟨?_, ?_, ?_, ?_, ?_, ?_⟩
  · intro out hu hl
    unfold resolveOperatingSystemType
    rw [hu]
    simp [hl]
  · intro out hu hl hd
    unfold resolveOperatingSystemType
    rw [hu]
    simp [hl, hd]
  · intro out hu hl hd
    unfold resolveOperatingSystemType
    rw [hu]
    simp [hl, hd]
  · intro e hu
    unfold resolveOperatingSystemType
    rw [hu]
  · intro out hc hw
    unfold windowsProbes
    rw [hc]
    simp [hw]
  · intro out2 hnot
    have hcmd : (match env.cmdVer with
        | .ok out =>
          if goContains (toLowerS out) "windows" then
            some ((OperatingSystem.OSWindows, (none : Option GoErr)),
              [Probe.uname, Probe.cmdVer])
          else none
        | .error _ => none) = none := by
      rcases hnot with hfail | ⟨hok, hw⟩
      · cases hc : env.cmdVer with
        | ok o =>
          rw [hc] at hfail
          simp [Except.isOk, Except.toBool] at hfail
        | error e => rfl
      · rw [hok]
        simp [hw]
    refine ⟨?_, ?_, ?_⟩
    · intro out hp hw
      unfold windowsProbes
      simp only [List.cons_append, List.nil_append]
      rw [hcmd]
      simp only [hp]
      simp [hw]
    · intro out hp hw
      unfold windowsProbes
      simp only [List.cons_append, List.nil_append]
      rw [hcmd]
      simp only [hp]
      simp [hw]
    · intro e hp
      unfold windowsProbes
      simp only [List.cons_append, List.nil_append]
      rw [hcmd]
      simp only [hp]

/-- Witness for C9: `"Darwin\n"` classifies as macOS after `uname` alone;
a failing `uname` with a Windows `ver` output classifies as Windows after
exactly two probes. -/
theorem C9_os_probe_order_witness :
    resolveOperatingSystemType
      { uname := .ok "Darwin\n", cmdVer := .error (.msg "x")
        powershell := .error (.msg "x") } = ((.OSMac, none), [.uname]) ∧
    windowsProbes
      { uname := .error (.msg "no uname")
        cmdVer := .ok "Microsoft Windows [Version 10]"
        powershell := .error (.msg "x") } [.uname] =
      ((.OSWindows, none), [.uname, .cmdVer]) := by
  constructor
  · exact ((C9_os_probe_order
      { uname := .ok "Darwin\n", cmdVer := .error (.msg "x")
        powershell := .error (.msg "x") }).2.1) "Darwin\n" rfl (by decide)
      (by decide)
  · exact ((C9_os_probe_order
      { uname := .error (.msg "no uname")
        cmdVer := .ok "Microsoft Windows [Version 10]"
        powershell := .error (.msg "x") }).2.2.2.2.1)
      "Microsoft Windows [Version 10]" rfl (by decide)

namespace DevpodSSH

/-! ## SSH config parsing (`pkg/ssh/config_parser.go`) -/

/-- Process environment of the parser: `os.UserHomeDir` (`none` = error)
and `os.Getenv("USER")`. -/
structure ParseEnv where
  home : Option String
  userEnv : String

/-- `filepath.Join(a, b)` for cleaned components. -/
def joinPath2 (a b : String) : String :=
  if a = "" then b else a ++ "/" ++ b

/-- `filepath.Join(home, ".ssh", key)`. -/
def sshJoin (home key : String) : String :=
  if home = "" then ".ssh/" ++ key else home ++ "/.ssh/" ++ key

/-- `strings.SplitN(host, "@", 2)` as `(parts[0], parts[1])`. -/
def splitAtFirstAt (host : String) : String × String :=
  let l := host.toList
  (⟨l.takeWhile (fun c => c != '@')⟩, ⟨(l.dropWhile (fun c => c != '@')).drop 1⟩)

/-- `defaultConfig` (config_parser.go lines 94-125): user@host splitting,
`$USER` / `"root"` fallback, port 22, and the three built-in default keys
in the source's order `id_rsa, id_ecdsa, id_ed25519`. -/
def defaultConfig (env : ParseEnv) (host : String) : SSHConfigRec :=
  let p := if goContains host "@" then splitAtFirstAt host else ("", host)
  let user0 := p.1
  let hostname := p.2
  let user :=
    if user0 = "" then (if env.userEnv = "" then "root" else env.userEnv)
    else user0
  let home := env.home.getD ""
  { hostname := hostname
    user := user
    port := "22"
    identityFiles :=
      [sshJoin home "id_rsa", sshJoin home "id_ecdsa", sshJoin home "id_ed25519"] }

/-- `matchHost` (config_parser.go lines 127-140). -/
def matchHost (pat host : String) : Bool :=
  if pat = "*" then true
  else if pat = host then true
  else
    let host' := if goContains host "@" then (splitAtFirstAt host).2 else host
    pat = host'

/-- `expandPath` (config_parser.go lines 142-150). -/
def expandPath (env : ParseEnv) (path : String) : String :=
  if goHasPrefixS path "~/" then
    match env.home with
    | some home => joinPath2 home (path.drop 2)
    | none => path
  else path

/-- `applyConfigDirective` (config_parser.go lines 80-92): identity files
are *appended* to the list (which starts as the defaults). -/
def applyConfigDirective (env : ParseEnv) (config : SSHConfigRec)
    (key value : String) : SSHConfigRec :=
  if key = "hostname" then { config with hostname := value }
  else if key = "user" then { config with user := value }
  else if key = "port" then { config with port := value }
  else if key = "identityfile" then
    { config with identityFiles := config.identityFiles ++ [expandPath env value] }
  else config

/-- The scanner loop of `parseSSHConfigFile` (config_parser.go lines
42-78) over the file's lines. -/
def parseLines (env : ParseEnv) (host : String) :
    List String → SSHConfigRec → Bool → SSHConfigRec
  | [], config, _ => config
  | line :: rest, config, inMatch =>
    let line := trimSpace line
    if (line == "") || goHasPrefixS line "#" then
      parseLines env host rest config inMatch
    else
      match goFields line with
      | [] => parseLines env host rest config inMatch
      | [_] => parseLines env host rest config inMatch
      | f0 :: f1 :: _ =>
        let key := toLowerS f0
        if key = "host" then parseLines env host rest config (matchHost f1 host)
        else if !inMatch then parseLines env host rest config inMatch
        else parseLines env host rest (applyConfigDirective env config key f1) inMatch

/-- `parseSSHConfigFile`: defaults first, then the matching blocks. -/
def parseSSHConfigFile (env : ParseEnv) (host : String) (lines : List String) :
    SSHConfigRec :=
  parseLines env host lines (defaultConfig env host) false

/-- Spec-side collector: the expanded `IdentityFile` values of matching
host blocks, in file order. -/
def gatherIdentityFiles (env : ParseEnv) (host : String) :
    List String → Bool → List String
  | [], _ => []
  | line :: rest, inMatch =>
    let line := trimSpace line
    if (line == "") || goHasPrefixS line "#" then
      gatherIdentityFiles env host rest inMatch
    else
      match goFields line with
      | [] => gatherIdentityFiles env host rest inMatch
      | [_] => gatherIdentityFiles env host rest inMatch
      | f0 :: f1 :: _ =>
        let key := toLowerS f0
        if key = "host" then gatherIdentityFiles env host rest (matchHost f1 host)
        else if !inMatch then gatherIdentityFiles env host rest inMatch
        else if key = "identityfile" then
          expandPath env f1 :: gatherIdentityFiles env host rest inMatch
        else gatherIdentityFiles env host rest inMatch

theorem applyConfigDirective_identityFiles (env : ParseEnv)
    (config : SSHConfigRec) (key value : String) :
    (applyConfigDirective env config key value).identityFiles =
      if key = "identityfile" then
        config.identityFiles ++ [expandPath env value]
      else config.identityFiles := by
  unfold applyConfigDirective
  by_cases h1 : key = "hostname"
  · subst h1
    rw [if_pos rfl, if_neg (by decide)]
  · by_cases h2 : key = "user"
    · subst h2
      rw [if_neg (by decide), if_pos rfl, if_neg (by decide)]
    · by_cases h3 : key = "port"
      · subst h3
        rw [if_neg (by decide), if_neg (by decide), if_pos rfl,
          if_neg (by decide)]
      · by_cases h4 : key = "identityfile"
        · subst h4
          rw [if_neg (by decide), if_neg (by decide), if_neg (by decide),
            if_pos rfl, if_pos rfl]
        · rw [if_neg h1, if_neg h2, if_neg h3, if_neg h4, if_neg h4]

/-- The parsed identity-file list is the starting list with the matching
blocks' expanded `IdentityFile` values appended in order. -/
theorem parseLines_identityFiles (env : ParseEnv) (host : String) :
    ∀ (lines : List String) (config : SSHConfigRec) (inMatch : Bool),
      (parseLines env host lines config inMatch).identityFiles =
        config.identityFiles ++ gatherIdentityFiles env host lines inMatch := by
  intro lines
  induction lines with
  | nil => intro config inMatch; simp [parseLines, gatherIdentityFiles]
  | cons line rest ih =>
    intro config inMatch
    unfold parseLines gatherIdentityFiles
    by_cases hC : ((trimSpace line == "") || goHasPrefixS (trimSpace line) "#") = true
    · simp only [hC, if_true]
      exact ih config inMatch
    · rw [Bool.not_eq_true] at hC
      simp only [hC, Bool.false_eq_true, if_false]
      cases hf : goFields (trimSpace line) with
      | nil => exact ih config inMatch
      | cons f0 tail =>
        cases tail with
        | nil => exact ih config inMatch
        | cons f1 rest2 =>
          simp only
          by_cases hhost : toLowerS f0 = "host"
          · simp only [hhost, if_pos rfl]
            exact ih config (matchHost f1 host)
          · simp only [if_neg hhost]
            cases hin : inMatch with
            | false =>
              simp only [Bool.not_false, if_true]
              exact ih config false
            | true =>
              simp only [Bool.not_true, Bool.false_eq_true, if_false]
              rw [ih (applyConfigDirective env config (toLowerS f0) f1) true,
                applyConfigDirective_identityFiles]
              by_cases hid : toLowerS f0 = "identityfile"
              · rw [if_pos hid, if_pos hid, List.append_assoc]
                rfl
              · rw [if_neg hid, if_neg hid]

end DevpodSSH

namespace DevpodSSH

/-- Parser environment of the C3 scenario. -/
def c3Env : ParseEnv := { home := some "/home/u", userEnv := "u" }

/-- A config file giving host `example` one explicit identity file. -/
def c3Lines : List String := ["Host example", "    IdentityFile /explicit/key"]

end DevpodSSH

/-- Counterexample to **C3**: with one explicit `IdentityFile` directive
for the resolved host, the parsed candidate list is the three built-in
defaults in the order `id_rsa, id_ecdsa, id_ed25519` followed by the
explicit file — not the explicit file first, and not the claimed default
order `id_ed25519, id_ecdsa, id_rsa`. -/
theorem C3_counterexample :
    (parseSSHConfigFile c3Env "example" c3Lines).identityFiles =
      ["/home/u/.ssh/id_rsa", "/home/u/.ssh/id_ecdsa",
       "/home/u/.ssh/id_ed25519", "/explicit/key"] ∧
    (parseSSHConfigFile c3Env "example" c3Lines).identityFiles ≠
      ["/explicit/key", "/home/u/.ssh/id_ed25519", "/home/u/.ssh/id_ecdsa",
       "/home/u/.ssh/id_rsa"] := by
  constructor
  · rfl
  · decide

/-- **C3** (amended) — In every resolved connection profile the built-in
default key paths come *first*, in the order `id_rsa, id_ecdsa,
id_ed25519`, and the explicit per-host identity files from the local SSH
client configuration are appended *after* them, in file order. -/
theorem C3_identity_candidate_order :
    ∀ (env : ParseEnv) (host : String) (lines : List String),
      (defaultConfig env host).identityFiles =
        [sshJoin (env.home.getD "") "id_rsa",
         sshJoin (env.home.getD "") "id_ecdsa",
         sshJoin (env.home.getD "") "id_ed25519"] ∧
      (parseSSHConfigFile env host lines).identityFiles =
        (defaultConfig env host).identityFiles ++
          gatherIdentityFiles env host lines false := by
  intro env host lines
  exact ⟨rfl, parseLines_identityFiles env host lines (defaultConfig env host) false⟩

namespace DevpodSSH

/-! ## `buildAuth` (`pkg/ssh/util.go`, lines 192-225) and its helpers
(`pkg/util` `ResolveHomeDirToAbs`, `DefaultIdentityFiles` at lines 63-73) -/

/-- The filesystem/process effects `buildAuth` consults: home directory,
`os.Stat` success, directory test, `goph.Key(path, "")` success, the
`SSH_AUTH_SOCK` variable and `goph.UseAgent()` usability. -/
structure AuthFS where
  home : Option String
  statOk : String → Bool
  isDir : String → Bool
  keyOk : String → Bool
  agentSock : Bool
  agentOk : Bool

/-- `util.ResolveHomeDirToAbs`: `strings.Replace(path, "~", home, 1)`
behind a `HasPrefix "~"` guard, so the first occurrence is at index 0. -/
def ResolveHomeDirToAbs (home : Option String) (path : String) :
    Except GoErr String :=
  if goHasPrefixS path "~" then
    match home with
    | none => .error (.msg "failed to get user home directory")
    | some h => .ok (h ++ path.drop 1)
  else .ok path

/-- `DefaultIdentityFiles` (util.go lines 63-73): empty on a missing or
empty home, else the three conventional paths, `id_ed25519` first. -/
def DefaultIdentityFiles (home : Option String) : List String :=
  match home with
  | none => []
  | some h =>
    if h = "" then []
    else [h ++ "/.ssh/id_ed25519", h ++ "/.ssh/id_ecdsa", h ++ "/.ssh/id_rsa"]

/-- What a successful `buildAuth` returned: a parsed key from a candidate
path, the agent, or a parsed key from a default path. -/
inductive AuthChoice where
  | keyFile (path : String)
  | agent
  | defaultKey (path : String)
deriving DecidableEq, Repr

/-- Tier 1 of `buildAuth` (lines 193-206): scan the identity candidates,
skipping unresolvable, empty, missing, directory, and unparseable paths. -/
def buildAuthCandidates (fs : AuthFS) : List String → Option AuthChoice
  | [] => none
  | f :: rest =>
    match ResolveHomeDirToAbs fs.home f with
    | .error _ => buildAuthCandidates fs rest
    | .ok path =>
      if path = "" then buildAuthCandidates fs rest
      else if fs.statOk path && !fs.isDir path then
        if fs.keyOk path then some (.keyFile path)
        else buildAuthCandidates fs rest
      else buildAuthCandidates fs rest

/-- Tier 3 of `buildAuth` (lines 216-223): scan the default key paths. -/
def defaultKeyScan (fs : AuthFS) : List String → Option AuthChoice
  | [] => none
  | path :: rest =>
    if fs.statOk path && !fs.isDir path then
      if fs.keyOk path then some (.defaultKey path)
      else defaultKeyScan fs rest
    else defaultKeyScan fs rest

/-- `buildAuth`: candidates, then the agent (only when `SSH_AUTH_SOCK` is
set and the agent is usable), then the default key paths; the terminal
error only after all three tiers. -/
def buildAuth (fs : AuthFS) (identityCandidates : List String) :
    Except GoErr AuthChoice :=
  match buildAuthCandidates fs identityCandidates with
  | some a => .ok a
  | none =>
    let tier3 : Except GoErr AuthChoice :=
      match defaultKeyScan fs (DefaultIdentityFiles fs.home) with
      | some a => .ok a
      | none => .error (.msg "no usable SSH auth found")
    if fs.agentSock then
      if fs.agentOk then .ok .agent else tier3
    else tier3

/-- Spec-side usability of a tier-1 candidate. -/
def usableCandidate (fs : AuthFS) (f : String) : Bool :=
  match ResolveHomeDirToAbs fs.home f with
  | .error _ => false
  | .ok path =>
    !(path == "") && (fs.statOk path && !fs.isDir path) && fs.keyOk path

/-- Spec-side usability of a tier-3 default path. -/
def usableDefault (fs : AuthFS) (path : String) : Bool :=
  (fs.statOk path && !fs.isDir path) && fs.keyOk path

/-- The resolved form of a candidate (what `goph.Key` would be given). -/
def resolvedPath (fs : AuthFS) (f : String) : String :=
  match ResolveHomeDirToAbs fs.home f with
  | .error _ => ""
  | .ok path => path

/-- Tier 1 returns the key of the first usable candidate, in order. -/
theorem buildAuthCandidates_eq_find (fs : AuthFS) :
    ∀ cands : List String,
      buildAuthCandidates fs cands =
        (cands.find? (usableCandidate fs)).map
          (fun f => .keyFile (resolvedPath fs f)) := by
  intro cands
  induction cands with
  | nil => rfl
  | cons f rest ih =>
    unfold buildAuthCandidates
    cases hr : ResolveHomeDirToAbs fs.home f with
    | error e =>
      have hu : usableCandidate fs f = false := by
        unfold usableCandidate
        rw [hr]
      rw [List.find?_cons_of_neg _ (by rw [hu]; exact Bool.false_ne_true)]
      exact ih
    | ok path =>
      dsimp only
      by_cases hempty : path = ""
      · subst hempty
        have hu : usableCandidate fs f = false := by
          unfold usableCandidate
          rw [hr]
          simp
        rw [if_pos rfl, List.find?_cons_of_neg _ (by rw [hu]; exact Bool.false_ne_true)]
        exact ih
      · rw [if_neg hempty]
        by_cases hstat : (fs.statOk path && !fs.isDir path) = true
        · rw [if_pos hstat]
          by_cases hkey : fs.keyOk path = true
          · have hu : usableCandidate fs f = true := by
              unfold usableCandidate
              rw [hr]
              simp [hempty, hstat, hkey]
            rw [if_pos hkey, List.find?_cons_of_pos _ hu]
            have hres : resolvedPath fs f = path := by
              unfold resolvedPath
              rw [hr]
            simp [hres]
          · have hu : usableCandidate fs f = false := by
              unfold usableCandidate
              rw [hr]
              rw [Bool.not_eq_true] at hkey
              simp [hkey]
            rw [if_neg hkey,
              List.find?_cons_of_neg _ (by rw [hu]; exact Bool.false_ne_true)]
            exact ih
        · have hu : usableCandidate fs f = false := by
            unfold usableCandidate
            rw [hr]
            rw [Bool.not_eq_true] at hstat
            simp [hstat]
          rw [if_neg hstat,
            List.find?_cons_of_neg _ (by rw [hu]; exact Bool.false_ne_true)]
          exact ih

/-- Tier 3 returns the key of the first usable default path, in order. -/
theorem defaultKeyScan_eq_find (fs : AuthFS) :
    ∀ paths : List String,
      defaultKeyScan fs paths =
        (paths.find? (usableDefault fs)).map (fun p => .defaultKey p) := by
  intro paths
  induction paths with
  | nil => rfl
  | cons path rest ih =>
    unfold defaultKeyScan
    by_cases hstat : (fs.statOk path && !fs.isDir path) = true
    · rw [if_pos hstat]
      by_cases hkey : fs.keyOk path = true
      · have hu : usableDefault fs path = true := by
          unfold usableDefault
          simp [hstat, hkey]
        rw [if_pos hkey, List.find?_cons_of_pos _ hu]
        rfl
      · have hu : usableDefault fs path = false := by
          unfold usableDefault
          rw [Bool.not_eq_true] at hkey
          simp [hkey]
        rw [if_neg hkey,
          List.find?_cons_of_neg _ (by rw [hu]; exact Bool.false_ne_true)]
        exact ih
    · have hu : usableDefault fs path = false := by
        unfold usableDefault
        rw [Bool.not_eq_true] at hstat
        simp [hstat]
      rw [if_neg hstat,
        List.find?_cons_of_neg _ (by rw [hu]; exact Bool.false_ne_true)]
      exact ih

end DevpodSSH

/-- **C4** — The Authentication Resolver tries, in order: (1) each
identity candidate path, skipping entries that do not resolve/exist, are
directories, or fail to parse as a private key — returning the first
usable one; (2) the SSH agent when its socket variable is set and usable;
(3) the fixed default key paths under the home directory; and fails with
"no usable SSH auth found" only after all three tiers are exhausted. -/
theorem C4_auth_resolver_tiers :
    ∀ (fs : AuthFS) (cands : List String),
      (∀ f, cands.find? (usableCandidate fs) = some f →
        buildAuth fs cands = .ok (.keyFile (resolvedPath fs f))) ∧
      (cands.find? (usableCandidate fs) = none →
        fs.agentSock = true → fs.agentOk = true →
        buildAuth fs cands = .ok .agent) ∧
      (cands.find? (usableCandidate fs) = none →
        (fs.agentSock = false ∨ fs.agentOk = false) →
        ∀ p, (DefaultIdentityFiles fs.home).find? (usableDefault fs) = some p →
          buildAuth fs cands = .ok (.defaultKey p)) ∧
      (cands.find? (usableCandidate fs) = none →
        (fs.agentSock = false ∨ fs.agentOk = false) →
        (DefaultIdentityFiles fs.home).find? (usableDefault fs) = none →
        buildAuth fs cands = .error (.msg "no usable SSH auth found")) := by
  intro fs cands
  refine ⟨?_, ?_, ?_, ?_⟩
  · intro f hf
    unfold buildAuth
    rw [buildAuthCandidates_eq_find, hf]
    rfl
  · intro hnone hsock hagent
    unfold buildAuth
    rw [buildAuthCandidates_eq_find, hnone]
    simp [hsock, hagent]
  · intro hnone hno p hp
    unfold buildAuth
    rw [buildAuthCandidates_eq_find, hnone]
    simp only [Option.map_none]
    rw [defaultKeyScan_eq_find, hp]
    rcases hno with h | h
    · simp [h]
    · cases hsock : fs.agentSock <;> simp [h]
  · intro hnone hno hdef
    unfold buildAuth
    rw [buildAuthCandidates_eq_find, hnone]
    simp only [Option.map_none]
    rw [defaultKeyScan_eq_find, hdef]
    rcases hno with h | h
    · simp [h]
    · cases hsock : fs.agentSock <;> simp [h]

/-- Witness for C4: a candidate list whose first two entries are missing
or unparseable succeeds on the third; with no usable candidate, no agent
and no default keys the terminal error is produced. -/
theorem C4_auth_resolver_tiers_witness :
    buildAuth
      { home := some "/home/u"
        statOk := fun p => p == "/k3"
        isDir := fun _ => false
        keyOk := fun p => p == "/k3"
        agentSock := false, agentOk := false }
      ["/k1", "/k2", "/k3"] = .ok (.keyFile "/k3") ∧
    buildAuth
      { home := none
        statOk := fun _ => false
        isDir := fun _ => false
        keyOk := fun _ => false
        agentSock := false, agentOk := false }
      ["~/.ssh/x"] = .error (.msg "no usable SSH auth found") := by
  constructor
  · have h := (C4_auth_resolver_tiers
      { home := some "/home/u"
        statOk := fun p => p == "/k3"
        isDir := fun _ => false
        keyOk := fun p => p == "/k3"
        agentSock := false, agentOk := false }
      ["/k1", "/k2", "/k3"]).1 "/k3" (by decide)
    exact h
  · exact (C4_auth_resolver_tiers
      { home := none
        statOk := fun _ => false
        isDir := fun _ => false
        keyOk := fun _ => false
        agentSock := false, agentOk := false }
      ["~/.ssh/x"]).2.2.2 (by decide) (Or.inl rfl) (by decide)
